import Mathlib

/-!
# QPNP PMIC temperature alarm driver (`drivers/thermal/qcom-spmi-temp-alarm.c`)

A shallow embedding of the driver's stage tracking and temperature estimation,
followed by theorems about it.

Conventions of the embedding

* `unsigned int`, `u8`, `u16`, `u32` values are `Nat`, reduced modulo `2 ^ w`
  where the C code truncates; `int` and `long` values are `Int`
  (`wrap_int`, `wrap_long` where a conversion or an addition could leave the range).
* The driver mutates `struct qpnp_tm_chip` in place; every operation therefore
  returns the return code together with the chip as it is left at the return,
  also on the error paths.
* Reading a C array outside its bounds has no defined result: operations
  that index an array return `Option`, and `none` stands for such a read.
* The register bus, the ADC channel and the interrupt core are outside the
  driver.  `Platform` gives the answer of each of them (return code and
  value, per register address) and carries a trace of the calls made.
-/

namespace QpnpTm

/-! ## Constants -/

def QPNP_TM_REG_DIG_MAJOR : Nat := 0x01
def QPNP_TM_REG_TYPE : Nat := 0x04
def QPNP_TM_REG_SUBTYPE : Nat := 0x05
def QPNP_TM_REG_STATUS : Nat := 0x08
def QPNP_TM_REG_SHUTDOWN_CTRL1 : Nat := 0x40
def QPNP_TM_REG_ALARM_CTRL : Nat := 0x46

def QPNP_TM_TYPE : Nat := 0x09
def QPNP_TM_SUBTYPE_GEN1 : Nat := 0x08
def QPNP_TM_SUBTYPE_GEN2 : Nat := 0x09

/-- Modelled from the spec: the kernel header's `GENMASK(h, l)`, which is not part of the
driver's file; the mask of the bits `h` down to `l` of an `unsigned long` (the spec's
"2-bit stage value", "3-bit state value", "override bits"). -/
def GENMASK (h l : Nat) : Nat :=
  (((2 ^ 64 - 1) <<< l) % 2 ^ 64) &&& ((2 ^ 64 - 1) >>> (63 - h))

/-- Modelled from the spec: the kernel header's `BIT(n)`, the single bit `n`. -/
def BIT (n : Nat) : Nat := (1 <<< n) % 2 ^ 64

/-- Bitwise complement of an `unsigned long`. -/
def bitnot_ulong (x : Nat) : Nat := (2 ^ 64 - 1) - x % 2 ^ 64

def STATUS_GEN1_STAGE_MASK : Nat := GENMASK 1 0
def STATUS_GEN2_STATE_MASK : Nat := GENMASK 6 4
def STATUS_GEN2_STATE_SHIFT : Nat := 4

def SHUTDOWN_CTRL1_OVERRIDE_MASK : Nat := GENMASK 7 6
def SHUTDOWN_CTRL1_THRESHOLD_MASK : Nat := GENMASK 1 0

def ALARM_CTRL_FORCE_ENABLE : Nat := BIT 7

def THRESH_COUNT : Nat := 4
def STAGE_COUNT : Nat := 3

/-- Over-temperature trip point values in mC. -/
def temp_map_gen1 : List (List Int) :=
  [[105000, 125000, 145000],
   [110000, 130000, 150000],
   [115000, 135000, 155000],
   [120000, 140000, 160000]]

def temp_map_gen2_v1 : List (List Int) :=
  [[ 90000, 110000, 140000],
   [ 95000, 115000, 145000],
   [100000, 120000, 150000],
   [105000, 125000, 155000]]

def TEMP_STAGE_HYSTERESIS : Int := 2000

def THRESH_MIN : Nat := 0
def THRESH_MAX : Nat := 3

/-- Temperature in milli Celsius reported during stage 0 if no ADC is present. -/
def DEFAULT_TEMP : Int := 37000

/-- This array maps from GEN2 alarm state to GEN1 alarm stage. -/
def alarm_state_map : List Nat := [0, 1, 1, 2, 2, 3, 3, 3]

/-- Modelled from the spec: the errno numbers of the kernel headers, which are not part of
the driver's file (the spec's ConfigurationError is `-EINVAL`). -/
def EINVAL : Int := 22
def ENOMEM : Int := 12
def ENXIO : Int := 6
def ENODEV : Int := 19
def EPROBE_DEFER : Int := 517

/-- Interrupt flags of the kernel headers. -/
def IRQF_TRIGGER_RISING : Nat := 0x1
def IRQF_TRIGGER_FALLING : Nat := 0x2
def IRQF_ONESHOT : Nat := 0x2000

/-! ## Machine integers -/

/-- Value of a `long` (64 bit, two's complement) after an arithmetic result is stored. -/
def wrap_long (x : Int) : Int := (x + 2 ^ 63) % 2 ^ 64 - 2 ^ 63

/-- Value of an `int` (32 bit, two's complement) after a wider value is stored into it. -/
def wrap_int (x : Int) : Int := (x + 2 ^ 31) % 2 ^ 32 - 2 ^ 31

/-! ## Data model -/

/-- A kernel pointer as the driver tests it: `NULL`, an `ERR_PTR` carrying a negative
errno, or a pointer to an object. -/
inductive kptr where
  | null
  | err (errno : Int)
  | valid (id : Nat)
deriving DecidableEq, Repr

def IS_ERR : kptr → Bool
  | .err _ => true
  | _ => false

structure qpnp_tm_chip where
  map : kptr
  tz_dev : kptr
  subtype : Nat
  temp : Int
  thresh : Nat
  stage : Nat
  prev_stage : Nat
  base : Nat
  irq : Int
  init_thresh : Nat
  adc : kptr
  temp_map : Option (List (List Int))
deriving DecidableEq, Repr

/-- One call of the driver into the bus, the ADC or the interrupt core. -/
inductive bus_event where
  | reg_read (reg : Nat)
  | reg_write (reg : Nat) (val : Nat)
  | adc_read
  | adc_release
  | irq_request (irq : Int) (flags : Nat)
  | sensor_register
deriving DecidableEq, Repr

/-- The collaborators of the driver: for each register address the return code and the
value of `regmap_read`, the return code of `regmap_write`, the answer of
`iio_read_channel_processed` and of `devm_request_threaded_irq`, and the calls made so far.
Every operation of the driver accesses a register address at most once per direction and
never reads an address after writing it, so an answer per address describes every behaviour
of the bus within one operation. -/
structure Platform where
  reg_val : Nat → Nat
  read_ret : Nat → Int
  write_ret : Nat → Nat → Int
  iio_ret : Int
  iio_val : Int
  request_irq_ret : Int
  trace : List bus_event

/-- What device binding hands to `qpnp_tm_probe`: the results of the allocation, of the
parent's regmap lookup, of the two device tree properties, of `platform_get_irq`, of
`iio_channel_get` and of the thermal zone registration. -/
structure platform_device where
  kzalloc_ok : Bool
  parent_regmap : kptr
  of_reg : Int × Nat
  of_threshold_set : Int × Nat
  irq : Int
  iio_channel : kptr
  tz_dev : kptr

/-! ## External calls -/

/-- The platform after the calls `e` have been made. -/
def logged (hw : Platform) (e : List bus_event) : Platform :=
  { hw with trace := hw.trace ++ e }

def regmap_read (hw : Platform) (reg : Nat) : Int × Nat × Platform :=
  (hw.read_ret reg, hw.reg_val reg % 2 ^ 32, logged hw [bus_event.reg_read reg])

def regmap_write (hw : Platform) (reg val : Nat) : Int × Platform :=
  (hw.write_ret reg val, logged hw [bus_event.reg_write reg val])

def iio_read_channel_processed (hw : Platform) : Int × Int × Platform :=
  (hw.iio_ret, wrap_int hw.iio_val, logged hw [bus_event.adc_read])

def iio_channel_release (hw : Platform) : Platform :=
  logged hw [bus_event.adc_release]

def devm_request_threaded_irq (hw : Platform) (irq : Int) (flags : Nat) : Int × Platform :=
  (hw.request_irq_ret, logged hw [bus_event.irq_request irq flags])

/-- The register address `chip->base + addr` handed to the regmap, an `unsigned int`. -/
def bus_addr (base addr : Nat) : Nat := (base + addr) % 2 ^ 32

/-! ## The driver -/

/-- Function `qpnp_tm_read`: returns the code, the content of `*data` afterwards, and the platform. -/
def qpnp_tm_read (chip : qpnp_tm_chip) (hw : Platform) (addr data : Nat) :
    Int × Nat × Platform :=
  let r := regmap_read hw (bus_addr chip.base addr)
  if r.1 < 0 then (r.1, data, r.2.2)
  else (0, r.2.1 % 2 ^ 8, r.2.2)

def qpnp_tm_write (chip : qpnp_tm_chip) (hw : Platform) (addr data : Nat) : Int × Platform :=
  regmap_write hw (bus_addr chip.base addr) data

/-- Function `qpnp_tm_decode_temp`: temperature in mC corresponding to the specified
over-temperature stage. -/
def qpnp_tm_decode_temp (chip : qpnp_tm_chip) (stage : Nat) : Option Int :=
  match chip.temp_map with
  | none => some 0
  | some tm =>
    if chip.thresh ≥ THRESH_COUNT ∨ stage = 0 ∨ stage > STAGE_COUNT then some 0
    else (tm[chip.thresh]?).bind fun row => row[stage - 1]?

/-- Function `qpnp_tm_get_temp_stage`: stage (GEN1) or state (GEN2) on success, or errno on
failure. -/
def qpnp_tm_get_temp_stage (chip : qpnp_tm_chip) (hw : Platform) : Int × Platform :=
  let r := qpnp_tm_read chip hw QPNP_TM_REG_STATUS 0
  if r.1 < 0 then (r.1, r.2.2)
  else if chip.subtype = QPNP_TM_SUBTYPE_GEN1 then
    (((r.2.1 &&& STATUS_GEN1_STAGE_MASK : Nat) : Int), r.2.2)
  else
    ((((r.2.1 &&& STATUS_GEN2_STATE_MASK) >>> STATUS_GEN2_STATE_SHIFT : Nat) : Int), r.2.2)

/-- Function `qpnp_tm_update_temp_no_adc`: updates the internal temp value based on the current
thermal stage and threshold as well as the previous stage. -/
def qpnp_tm_update_temp_no_adc (chip : qpnp_tm_chip) (hw : Platform) :
    Option (Int × qpnp_tm_chip × Platform) :=
  let r := qpnp_tm_get_temp_stage chip hw
  if r.1 < 0 then some (r.1, chip, r.2)
  else
    let stage := r.1.toNat
    (if chip.subtype = QPNP_TM_SUBTYPE_GEN1 then some (stage, chip.stage)
     else (alarm_state_map[stage]?).bind fun sn =>
       (alarm_state_map[chip.stage]?).bind fun so => some (sn, so)).bind fun p =>
    let stage_new := p.1
    let stage_old := p.2
    (if stage_new > stage_old then
        (qpnp_tm_decode_temp chip stage_new).bind fun t =>
          some { chip with temp := wrap_long (t + TEMP_STAGE_HYSTERESIS) }
      else if stage_new < stage_old then
        (qpnp_tm_decode_temp chip (stage_new + 1)).bind fun t =>
          some { chip with temp := wrap_long (t - TEMP_STAGE_HYSTERESIS) }
      else some chip).bind fun chip1 =>
    some (0, { chip1 with stage := stage }, r.2)

/-- Function `qpnp_tm_get_temp`: `temp` is the caller's pointer, `none` for `NULL` and `some v` for
an `int` holding `v`; the second component of the result is that `int` afterwards. -/
def qpnp_tm_get_temp (chip : qpnp_tm_chip) (temp : Option Int) (hw : Platform) :
    Option (Int × Option Int × qpnp_tm_chip × Platform) :=
  match temp with
  | none => some (-EINVAL, none, chip, hw)
  | some out =>
    if IS_ERR chip.adc then
      (qpnp_tm_update_temp_no_adc chip hw).bind fun r =>
        if r.1 < 0 then some (r.1, some out, r.2.1, r.2.2)
        else some (0, some (wrap_int r.2.1.temp), r.2.1, r.2.2)
    else
      let r := iio_read_channel_processed hw
      if r.1 < 0 then some (r.1, some out, chip, r.2.2)
      else
        let chip1 := { chip with temp := r.2.1 }
        some (0, some (wrap_int chip1.temp), chip1, r.2.2)

/-- Function `qpnp_tm_init`: initializes the internal temp value based on only the current thermal
stage and threshold; sets up threshold control and disables shutdown override. -/
def qpnp_tm_init (chip : qpnp_tm_chip) (hw : Platform) :
    Option (Int × qpnp_tm_chip × Platform) :=
  let r1 := qpnp_tm_read chip hw QPNP_TM_REG_SHUTDOWN_CTRL1 0
  if r1.1 < 0 then some (r1.1, chip, r1.2.2)
  else
    let reg := r1.2.1
    let chip1 := { chip with thresh := reg &&& SHUTDOWN_CTRL1_THRESHOLD_MASK,
                             temp := DEFAULT_TEMP }
    let r2 := qpnp_tm_get_temp_stage chip1 r1.2.2
    if r2.1 < 0 then some (r2.1, chip1, r2.2)
    else
      let chip2 := { chip1 with stage := r2.1.toNat }
      (if chip2.subtype = QPNP_TM_SUBTYPE_GEN1 then some chip2.stage
       else alarm_state_map[chip2.stage]?).bind fun stage =>
      (if stage ≠ 0 then
          (qpnp_tm_decode_temp chip2 stage).bind fun t => some { chip2 with temp := t }
        else some chip2).bind fun chip3 =>
      let chip4 := { chip3 with thresh := chip3.init_thresh }
      let reg1 := (reg &&&
        bitnot_ulong (SHUTDOWN_CTRL1_OVERRIDE_MASK ||| SHUTDOWN_CTRL1_THRESHOLD_MASK)) % 2 ^ 8
      let reg2 := (reg1 ||| (chip4.thresh &&& SHUTDOWN_CTRL1_THRESHOLD_MASK)) % 2 ^ 8
      let w1 := qpnp_tm_write chip4 r2.2 QPNP_TM_REG_SHUTDOWN_CTRL1 reg2
      if w1.1 < 0 then some (w1.1, chip4, w1.2)
      else
        let reg3 := ALARM_CTRL_FORCE_ENABLE % 2 ^ 8
        let w2 := qpnp_tm_write chip4 w1.2 QPNP_TM_REG_ALARM_CTRL reg3
        some (w2.1, chip4, w2.2)

/-- The chip as `devm_kzalloc` returns it: every field zero. -/
def chip_zero : qpnp_tm_chip :=
  { map := kptr.null, tz_dev := kptr.null, subtype := 0, temp := 0, thresh := 0, stage := 0,
    prev_stage := 0, base := 0, irq := 0, init_thresh := 0, adc := kptr.null,
    temp_map := none }

/-- The `fail:` label of `qpnp_tm_probe`. -/
def qpnp_tm_probe_fail (ret : Int) (chip : qpnp_tm_chip) (hw : Platform) :
    Int × Option qpnp_tm_chip × Platform :=
  if !IS_ERR chip.adc then (ret, some chip, iio_channel_release hw)
  else (ret, some chip, hw)

/-- The second half of `qpnp_tm_probe`, from the read of the type register to the end:
identification of the module, selection of the calibration table, `qpnp_tm_init`, and the
registration of the interrupt and of the thermal zone sensor. -/
def qpnp_tm_probe_hw (pdev : platform_device) (chip : qpnp_tm_chip) (hw : Platform) :
    Option (Int × Option qpnp_tm_chip × Platform) :=
  let r1 := qpnp_tm_read chip hw QPNP_TM_REG_TYPE 0
  if r1.1 < 0 then some (qpnp_tm_probe_fail r1.1 chip r1.2.2)
  else
    let type := r1.2.1
    let r2 := qpnp_tm_read chip r1.2.2 QPNP_TM_REG_SUBTYPE 0
    if r2.1 < 0 then some (qpnp_tm_probe_fail r2.1 chip r2.2.2)
    else
      let subtype := r2.2.1
      let r3 := qpnp_tm_read chip r2.2.2 QPNP_TM_REG_DIG_MAJOR 0
      if r3.1 < 0 then some (qpnp_tm_probe_fail r3.1 chip r3.2.2)
      else
        let dig_major := r3.2.1
        if type ≠ QPNP_TM_TYPE ∨ (subtype ≠ QPNP_TM_SUBTYPE_GEN1
            ∧ subtype ≠ QPNP_TM_SUBTYPE_GEN2) then
          some (qpnp_tm_probe_fail (-ENODEV) chip r3.2.2)
        else
          let chip := { chip with subtype := subtype }
          let chip := { chip with
            temp_map :=
              if subtype = QPNP_TM_SUBTYPE_GEN2 ∧ dig_major ≥ 1 then some temp_map_gen2_v1
              else some temp_map_gen1 }
          (qpnp_tm_init chip r3.2.2).bind fun i =>
          let chip := i.2.1
          if i.1 < 0 then some (qpnp_tm_probe_fail i.1 chip i.2.2)
          else
            let flags :=
              if subtype = QPNP_TM_SUBTYPE_GEN2 then
                IRQF_TRIGGER_RISING ||| IRQF_TRIGGER_FALLING
              else IRQF_TRIGGER_RISING
            let q := devm_request_threaded_irq i.2.2 chip.irq (flags ||| IRQF_ONESHOT)
            if q.1 < 0 then some (qpnp_tm_probe_fail q.1 chip q.2)
            else
              let chip := { chip with tz_dev := pdev.tz_dev }
              let hw1 := logged q.2 [bus_event.sensor_register]
              match chip.tz_dev with
              | kptr.err e => some (qpnp_tm_probe_fail e chip hw1)
              | _ => some (0, some chip, hw1)

/-- Function `qpnp_tm_probe`: the second component is the chip left as the device's driver
data (`none` when the allocation failed).  The first half, up to `chip->base = res`, is
here; the rest is `qpnp_tm_probe_hw`. -/
def qpnp_tm_probe (pdev : platform_device) (hw : Platform) :
    Option (Int × Option qpnp_tm_chip × Platform) :=
  if !pdev.kzalloc_ok then some (-ENOMEM, none, hw)
  else
    let chip := { chip_zero with map := pdev.parent_regmap }
    if chip.map = kptr.null then some (- ENXIO, some chip, hw)
    else if pdev.of_reg.1 < 0 then some (pdev.of_reg.1, some chip, hw)
    else
      let res := pdev.of_reg.2 % 2 ^ 32
      let chip := { chip with init_thresh := THRESH_MIN }
      let chip := { chip with
        init_thresh :=
          if pdev.of_threshold_set.1 = 0 then pdev.of_threshold_set.2 % 2 ^ 32
          else chip.init_thresh }
      if pdev.of_threshold_set.1 = 0 ∧ chip.init_thresh > THRESH_MAX then
        some (-EINVAL, some chip, hw)
      else
        let chip := { chip with irq := wrap_int pdev.irq }
        if chip.irq < 0 then some (chip.irq, some chip, hw)
        else
          let chip := { chip with adc := pdev.iio_channel }
          if chip.adc = kptr.err (-EPROBE_DEFER) then some (-EPROBE_DEFER, some chip, hw)
          else
            let chip := { chip with base := res }
            qpnp_tm_probe_hw pdev chip hw

/-- Function `qpnp_tm_restore`: the power management `restore` hook. -/
def qpnp_tm_restore (chip : qpnp_tm_chip) (hw : Platform) :
    Option (Int × qpnp_tm_chip × Platform) :=
  let flags :=
    if chip.subtype = QPNP_TM_SUBTYPE_GEN2 then IRQF_TRIGGER_RISING ||| IRQF_TRIGGER_FALLING
    else IRQF_TRIGGER_RISING
  if chip.irq > 0 then
    let q := devm_request_threaded_irq hw chip.irq (flags ||| IRQF_ONESHOT)
    if q.1 < 0 then some (q.1, chip, q.2)
    else qpnp_tm_init chip q.2
  else qpnp_tm_init chip hw

/-! ## Vocabulary of the statements -/

/-- The byte a successful `qpnp_tm_read` of offset `addr` delivers to a chip at `base`. -/
def reg_byte (base : Nat) (hw : Platform) (addr : Nat) : Nat :=
  hw.reg_val (bus_addr base addr) % 2 ^ 32 % 2 ^ 8

/-- The stage (GEN1) or state (GEN2) field of the status byte `b`. -/
def status_field (subtype b : Nat) : Nat :=
  if subtype = QPNP_TM_SUBTYPE_GEN1 then b &&& STATUS_GEN1_STAGE_MASK
  else (b &&& STATUS_GEN2_STATE_MASK) >>> STATUS_GEN2_STATE_SHIFT

/-- The stage a raw stage or state stands for: itself for GEN1, its entry in
`alarm_state_map` for GEN2 (`none` when the state is no index of the map). -/
def normalized_stage (subtype raw : Nat) : Option Nat :=
  if subtype = QPNP_TM_SUBTYPE_GEN1 then some raw else alarm_state_map[raw]?

/-- The byte `qpnp_tm_init` computes for SHUTDOWN_CTRL1 from the byte `b` it has read and
the configured threshold set `c`: the expression of the code
(`reg &= ~(OVERRIDE_MASK | THRESHOLD_MASK); reg |= thresh & THRESHOLD_MASK`, in `u8`). -/
def ctrl1_byte (b c : Nat) : Nat :=
  ((b &&& bitnot_ulong (SHUTDOWN_CTRL1_OVERRIDE_MASK ||| SHUTDOWN_CTRL1_THRESHOLD_MASK))
    % 2 ^ 8 ||| (c &&& SHUTDOWN_CTRL1_THRESHOLD_MASK)) % 2 ^ 8

/-! ## Concrete inputs -/

/-- A platform whose status register holds `status` and whose SHUTDOWN_CTRL1 register holds
`ctrl` (chip base 0), every call succeeding with code 0. -/
def hw_regs (status ctrl : Nat) : Platform :=
  { reg_val := fun a => if a = 0x08 then status else if a = 0x40 then ctrl else 0,
    read_ret := fun _ => 0, write_ret := fun _ _ => 0, iio_ret := 0, iio_val := 0,
    request_irq_ret := 0, trace := [] }

/-- The platform `hw_regs` with every register read failing with `-EIO` (-5). -/
def hw_read_fails (status ctrl : Nat) : Platform :=
  { hw_regs status ctrl with read_ret := fun _ => -5 }

/-- A GEN1 chip without ADC channel, with the GEN1 table, at base 0. -/
def chip_gen1 (thresh stage : Nat) (temp : Int) : qpnp_tm_chip :=
  { chip_zero with map := kptr.valid 1, subtype := QPNP_TM_SUBTYPE_GEN1, temp := temp,
                   thresh := thresh, stage := stage, adc := kptr.err (-19),
                   temp_map := some temp_map_gen1 }

/-- A GEN2 chip (digital revision 1 or later) without ADC channel, at base 0. -/
def chip_gen2 (thresh stage : Nat) (temp : Int) : qpnp_tm_chip :=
  { chip_zero with map := kptr.valid 1, subtype := QPNP_TM_SUBTYPE_GEN2, temp := temp,
                   thresh := thresh, stage := stage, adc := kptr.err (-19),
                   temp_map := some temp_map_gen2_v1 }

/-- A device binding at register base 0x2400 with threshold set 2 configured, interrupt 5
and no ADC channel. -/
def pdev_example : platform_device :=
  { kzalloc_ok := true, parent_regmap := kptr.valid 1, of_reg := (0, 0x2400),
    of_threshold_set := (0, 2), irq := 5, iio_channel := kptr.err (-19),
    tz_dev := kptr.valid 3 }

/-- A platform for `pdev_example`: a temperature alarm module (type 0x09) of the given
subtype and digital revision, with the given status and SHUTDOWN_CTRL1 bytes, every call
succeeding with code 0. -/
def hw_module (subtype dig_major status ctrl : Nat) : Platform :=
  { reg_val := fun a =>
      if a = 0x2404 then 0x09 else if a = 0x2405 then subtype
      else if a = 0x2401 then dig_major else if a = 0x2408 then status
      else if a = 0x2440 then ctrl else 0,
    read_ret := fun _ => 0, write_ret := fun _ _ => 0, iio_ret := 0, iio_val := 0,
    request_irq_ret := 0, trace := [] }

/-- The device binding `pdev_example` with the out-of-range threshold set 5 configured. -/
def pdev_bad_thresh : platform_device :=
  { pdev_example with of_threshold_set := (0, 5) }

/-- A chip with an ADC channel: the GEN1 chip `chip_gen1` with a valid channel pointer. -/
def chip_adc (thresh stage : Nat) (temp : Int) : qpnp_tm_chip :=
  { (chip_gen1 thresh stage temp) with adc := kptr.valid 7 }

/-- A platform like `hw_regs` whose ADC channel answers `ret` with the reading `val`. -/
def hw_adc (status : Nat) (ret val : Int) : Platform :=
  { (hw_regs status 0) with iio_ret := ret, iio_val := val }

/-- The platform `hw_regs` whose status register read fails with -5 while every other call
succeeds. -/
def hw_status_fails (status ctrl : Nat) : Platform :=
  { (hw_regs status ctrl) with read_ret := fun a => if a = 0x08 then -5 else 0 }

/-- The platform `hw_regs` whose register writes fail with -5. -/
def hw_write_fails (status ctrl : Nat) : Platform :=
  { (hw_regs status ctrl) with write_ret := fun _ _ => -5 }

/-! ## Sequences of calls -/

/-- One call into the driver after the probe has set up the chip, with the platform the
call runs on: `qpnp_tm_init` (also reached through `qpnp_tm_restore`),
`qpnp_tm_update_temp_no_adc`, or `qpnp_tm_get_temp` with the caller's output pointer. -/
inductive driver_call where
  | init (hw : Platform)
  | update (hw : Platform)
  | get_temp (temp : Option Int) (hw : Platform)

/-- The chip after one call, whatever the call returned; `none` when the call read an
array outside its bounds. -/
def run_call (chip : qpnp_tm_chip) : driver_call → Option qpnp_tm_chip
  | driver_call.init hw => (qpnp_tm_init chip hw).map fun r => r.2.1
  | driver_call.update hw => (qpnp_tm_update_temp_no_adc chip hw).map fun r => r.2.1
  | driver_call.get_temp temp hw => (qpnp_tm_get_temp chip temp hw).map fun r => r.2.2.1

/-- The chip after a sequence of calls. -/
def run_calls (chip : qpnp_tm_chip) : List driver_call → Option qpnp_tm_chip
  | [] => some chip
  | call :: rest => (run_call chip call).bind fun c => run_calls c rest

/-! ## Further concrete inputs -/

/-- A platform that reports the largest stage and threshold fields: every register reads
0xFF. -/
def hw_all_ones : Platform :=
  { reg_val := fun _ => 0xFF, read_ret := fun _ => 0, write_ret := fun _ _ => 0,
    iio_ret := 0, iio_val := 0, request_irq_ret := 0, trace := [] }

/-! ## Auxiliary lemmas -/

@[simp]
theorem logged_read_ret (hw : Platform) (e : List bus_event) :
    (logged hw e).read_ret = hw.read_ret := rfl

@[simp]
theorem logged_write_ret (hw : Platform) (e : List bus_event) :
    (logged hw e).write_ret = hw.write_ret := rfl

@[simp]
theorem logged_reg_val (hw : Platform) (e : List bus_event) :
    (logged hw e).reg_val = hw.reg_val := rfl

@[simp]
theorem logged_iio_ret (hw : Platform) (e : List bus_event) :
    (logged hw e).iio_ret = hw.iio_ret := rfl

@[simp]
theorem logged_iio_val (hw : Platform) (e : List bus_event) :
    (logged hw e).iio_val = hw.iio_val := rfl

@[simp]
theorem logged_request_irq_ret (hw : Platform) (e : List bus_event) :
    (logged hw e).request_irq_ret = hw.request_irq_ret := rfl

@[simp]
theorem logged_trace (hw : Platform) (e : List bus_event) :
    (logged hw e).trace = hw.trace ++ e := rfl

@[simp]
theorem logged_logged (hw : Platform) (a b : List bus_event) :
    logged (logged hw a) b = logged hw (a ++ b) := by
  simp [logged, List.append_assoc]

@[simp]
theorem reg_byte_logged (base : Nat) (hw : Platform) (e : List bus_event) (addr : Nat) :
    reg_byte base (logged hw e) addr = reg_byte base hw addr := rfl

theorem masks_eval : STATUS_GEN1_STAGE_MASK = 3 ∧ STATUS_GEN2_STATE_MASK = 0x70 ∧
    SHUTDOWN_CTRL1_OVERRIDE_MASK = 0xC0 ∧ SHUTDOWN_CTRL1_THRESHOLD_MASK = 3 ∧
    ALARM_CTRL_FORCE_ENABLE = 0x80 := by
  decide

theorem gen1_field_lt (b : Nat) : b &&& STATUS_GEN1_STAGE_MASK < 4 := by
  have h : STATUS_GEN1_STAGE_MASK = 3 := by decide
  rw [h]
  exact Nat.lt_succ_of_le Nat.and_le_right

theorem gen2_field_lt (b : Nat) :
    (b &&& STATUS_GEN2_STATE_MASK) >>> STATUS_GEN2_STATE_SHIFT < 8 := by
  have h : STATUS_GEN2_STATE_MASK = 0x70 := by decide
  have h2 : STATUS_GEN2_STATE_SHIFT = 4 := rfl
  rw [h, h2, Nat.shiftRight_eq_div_pow]
  have : b &&& 0x70 ≤ 0x70 := Nat.and_le_right
  omega

theorem wrap_long_id (x : Int) (h1 : -(2 ^ 63) ≤ x) (h2 : x < 2 ^ 63) : wrap_long x = x := by
  unfold wrap_long
  omega

theorem qpnp_tm_read_ok (chip : qpnp_tm_chip) (hw : Platform) (addr data : Nat)
    (h : 0 ≤ hw.read_ret (bus_addr chip.base addr)) :
    qpnp_tm_read chip hw addr data =
      (0, reg_byte chip.base hw addr, logged hw [bus_event.reg_read (bus_addr chip.base addr)]) := by
  simp only [qpnp_tm_read, regmap_read, reg_byte]
  rw [if_neg (not_lt.mpr h)]

theorem qpnp_tm_read_fail (chip : qpnp_tm_chip) (hw : Platform) (addr data : Nat)
    (h : hw.read_ret (bus_addr chip.base addr) < 0) :
    qpnp_tm_read chip hw addr data =
      (hw.read_ret (bus_addr chip.base addr), data,
        logged hw [bus_event.reg_read (bus_addr chip.base addr)]) := by
  simp only [qpnp_tm_read, regmap_read, reg_byte]
  rw [if_pos h]

theorem get_temp_stage_ok (chip : qpnp_tm_chip) (hw : Platform)
    (h : 0 ≤ hw.read_ret (bus_addr chip.base QPNP_TM_REG_STATUS)) :
    qpnp_tm_get_temp_stage chip hw =
      ((status_field chip.subtype (reg_byte chip.base hw QPNP_TM_REG_STATUS) : Int),
        logged hw [bus_event.reg_read (bus_addr chip.base QPNP_TM_REG_STATUS)]) := by
  unfold qpnp_tm_get_temp_stage
  rw [qpnp_tm_read_ok chip hw _ _ h]
  by_cases hs : chip.subtype = QPNP_TM_SUBTYPE_GEN1
  · simp [hs, status_field]
  · simp [hs, status_field]

theorem get_temp_stage_fail (chip : qpnp_tm_chip) (hw : Platform)
    (h : hw.read_ret (bus_addr chip.base QPNP_TM_REG_STATUS) < 0) :
    qpnp_tm_get_temp_stage chip hw =
      (hw.read_ret (bus_addr chip.base QPNP_TM_REG_STATUS),
        logged hw [bus_event.reg_read (bus_addr chip.base QPNP_TM_REG_STATUS)]) := by
  unfold qpnp_tm_get_temp_stage
  rw [qpnp_tm_read_fail chip hw _ _ h]
  simp [h]

theorem status_field_le (subtype b : Nat) : status_field subtype b < 8 := by
  unfold status_field
  split
  · have := gen1_field_lt b
    omega
  · exact gen2_field_lt b

theorem status_field_gen1 (b : Nat) : status_field QPNP_TM_SUBTYPE_GEN1 b < 4 := by
  unfold status_field
  simpa using gen1_field_lt b

theorem normalized_stage_le (subtype raw s : Nat)
    (h : normalized_stage subtype raw = some s)
    (hraw : subtype = QPNP_TM_SUBTYPE_GEN1 → raw ≤ 3) : s ≤ 3 := by
  unfold normalized_stage at h
  split at h
  · rename_i hs
    have := hraw hs
    simp at h
    omega
  · have hlt : raw < 8 := by
      by_contra hc
      have : alarm_state_map[raw]? = none := by
        apply List.getElem?_eq_none
        simp [alarm_state_map]
        omega
      rw [this] at h
      exact absurd h (by simp)
    interval_cases raw <;> simp [alarm_state_map] at h <;> omega

/-- The update with a successful status read, in terms of the normalized stages. -/
theorem update_ok (chip : qpnp_tm_chip) (hw : Platform)
    (h : 0 ≤ hw.read_ret (bus_addr chip.base QPNP_TM_REG_STATUS)) (sn so : Nat)
    (hn : normalized_stage chip.subtype
      (status_field chip.subtype (reg_byte chip.base hw QPNP_TM_REG_STATUS)) = some sn)
    (ho : normalized_stage chip.subtype chip.stage = some so) :
    qpnp_tm_update_temp_no_adc chip hw =
      ((if sn > so then
          (qpnp_tm_decode_temp chip sn).bind fun t =>
            some { chip with temp := wrap_long (t + TEMP_STAGE_HYSTERESIS) }
        else if sn < so then
          (qpnp_tm_decode_temp chip (sn + 1)).bind fun t =>
            some { chip with temp := wrap_long (t - TEMP_STAGE_HYSTERESIS) }
        else some chip).bind fun chip1 =>
        some (0, { chip1 with
            stage := status_field chip.subtype (reg_byte chip.base hw QPNP_TM_REG_STATUS) },
          logged hw [bus_event.reg_read (bus_addr chip.base QPNP_TM_REG_STATUS)])) := by
  unfold qpnp_tm_update_temp_no_adc
  rw [get_temp_stage_ok chip hw h]
  unfold normalized_stage at hn ho
  by_cases hs : chip.subtype = QPNP_TM_SUBTYPE_GEN1
  · simp only [hs, if_true, Option.some.injEq] at hn ho
    simp [hs, hn, ho]
  · simp only [hs, if_false] at hn ho
    simp [hs, hn, ho]

theorem normalized_stage_defined (subtype raw : Nat) (h : raw < 8) :
    ∃ s, normalized_stage subtype raw = some s := by
  unfold normalized_stage
  split
  · exact ⟨raw, rfl⟩
  · interval_cases raw <;> simp [alarm_state_map]

/-- The update with a successful status read, as one equation. -/
theorem update_eq (chip : qpnp_tm_chip) (hw : Platform)
    (h : 0 ≤ hw.read_ret (bus_addr chip.base QPNP_TM_REG_STATUS)) :
    qpnp_tm_update_temp_no_adc chip hw =
      (normalized_stage chip.subtype
        (status_field chip.subtype (reg_byte chip.base hw QPNP_TM_REG_STATUS))).bind fun sn =>
      (normalized_stage chip.subtype chip.stage).bind fun so =>
      ((if sn > so then
          (qpnp_tm_decode_temp chip sn).bind fun t =>
            some { chip with temp := wrap_long (t + TEMP_STAGE_HYSTERESIS) }
        else if sn < so then
          (qpnp_tm_decode_temp chip (sn + 1)).bind fun t =>
            some { chip with temp := wrap_long (t - TEMP_STAGE_HYSTERESIS) }
        else some chip).bind fun chip1 =>
        some (0, { chip1 with
            stage := status_field chip.subtype (reg_byte chip.base hw QPNP_TM_REG_STATUS) },
          logged hw [bus_event.reg_read (bus_addr chip.base QPNP_TM_REG_STATUS)])) := by
  have hcast : ¬ ((status_field chip.subtype (reg_byte chip.base hw QPNP_TM_REG_STATUS) : Nat)
      : Int) < 0 := by omega
  unfold qpnp_tm_update_temp_no_adc
  rw [get_temp_stage_ok chip hw h]
  unfold normalized_stage
  by_cases hs : chip.subtype = QPNP_TM_SUBTYPE_GEN1
  · simp [hs]
  · cases h1 : alarm_state_map[status_field chip.subtype
        (reg_byte chip.base hw QPNP_TM_REG_STATUS)]? <;>
      cases h2 : alarm_state_map[chip.stage]? <;> simp [hs, hcast, h1, h2]

theorem update_fail (chip : qpnp_tm_chip) (hw : Platform)
    (h : hw.read_ret (bus_addr chip.base QPNP_TM_REG_STATUS) < 0) :
    qpnp_tm_update_temp_no_adc chip hw =
      some (hw.read_ret (bus_addr chip.base QPNP_TM_REG_STATUS), chip,
        logged hw [bus_event.reg_read (bus_addr chip.base QPNP_TM_REG_STATUS)]) := by
  unfold qpnp_tm_update_temp_no_adc
  rw [get_temp_stage_fail chip hw h]
  simp [h]

/-- Whatever the update returns, it has changed at most `temp` and `stage`; when it returns
0 the status read succeeded and `stage` is the raw field read. -/
theorem update_result (chip c1 : qpnp_tm_chip) (hw hw1 : Platform) (ret : Int)
    (h : qpnp_tm_update_temp_no_adc chip hw = some (ret, c1, hw1)) :
    c1 = { chip with temp := c1.temp, stage := c1.stage } ∧
    (ret = 0 → 0 ≤ hw.read_ret (bus_addr chip.base QPNP_TM_REG_STATUS) ∧
      c1.stage = status_field chip.subtype (reg_byte chip.base hw QPNP_TM_REG_STATUS)) := by
  by_cases hr : 0 ≤ hw.read_ret (bus_addr chip.base QPNP_TM_REG_STATUS)
  · rw [update_eq chip hw hr] at h
    cases hn : normalized_stage chip.subtype
        (status_field chip.subtype (reg_byte chip.base hw QPNP_TM_REG_STATUS)) with
    | none => simp [hn] at h
    | some sn =>
      cases ho : normalized_stage chip.subtype chip.stage with
      | none => simp [hn, ho] at h
      | some so =>
        simp only [hn, ho, Option.some_bind] at h
        split at h
        · cases hd : qpnp_tm_decode_temp chip sn with
          | none => simp [hd] at h
          | some t =>
            simp [hd] at h
            obtain ⟨-, rfl, -⟩ := h
            exact ⟨rfl, fun _ => ⟨hr, rfl⟩⟩
        · split at h
          · cases hd : qpnp_tm_decode_temp chip (sn + 1) with
            | none => simp [hd] at h
            | some t =>
              simp [hd] at h
              obtain ⟨-, rfl, -⟩ := h
              exact ⟨rfl, fun _ => ⟨hr, rfl⟩⟩
          · simp at h
            obtain ⟨-, rfl, -⟩ := h
            exact ⟨rfl, fun _ => ⟨hr, rfl⟩⟩
  · have hr' : hw.read_ret (bus_addr chip.base QPNP_TM_REG_STATUS) < 0 := not_le.mp hr
    rw [update_fail chip hw hr'] at h
    simp at h
    obtain ⟨h1, rfl, -⟩ := h
    refine ⟨rfl, fun h0 => ?_⟩
    omega

/-- For the two calibration tables, a threshold set in 0..3 and a stage in 1..3 the lookup
is the table entry, and every entry lies between 90000 and 160000 mC. -/
theorem decode_temp_entry (chip : qpnp_tm_chip) (tm : List (List Int))
    (hmap : chip.temp_map = some tm) (htab : tm = temp_map_gen1 ∨ tm = temp_map_gen2_v1)
    (hth : chip.thresh ≤ 3) (s : Nat) (h1 : 1 ≤ s) (h3 : s ≤ 3) :
    ∃ row t, tm[chip.thresh]? = some row ∧ row[s - 1]? = some t ∧
      qpnp_tm_decode_temp chip s = some t ∧ 90000 ≤ t ∧ t ≤ 160000 := by
  unfold qpnp_tm_decode_temp
  rw [hmap]
  generalize chip.thresh = th at hth
  rcases htab with rfl | rfl <;> interval_cases th <;> interval_cases s <;>
    simp [temp_map_gen1, temp_map_gen2_v1, THRESH_COUNT, STAGE_COUNT]

/-- C1 (heating rule): with a calibration table selected, a threshold set in 0..3 and a
successful status read, if the normalized new stage is strictly greater than the normalized
stored stage, `qpnp_tm_update_temp_no_adc` returns 0 and leaves the stored temperature at
exactly the table entry `temp_map[thresh][stage_new - 1]` plus 2000, unclamped; the stored
stage becomes the raw stage read and exactly one register read is issued. -/
theorem heating_rule (chip : qpnp_tm_chip) (hw : Platform) (tm : List (List Int))
    (sn so : Nat)
    (hmap : chip.temp_map = some tm) (htab : tm = temp_map_gen1 ∨ tm = temp_map_gen2_v1)
    (hth : chip.thresh ≤ 3)
    (hread : 0 ≤ hw.read_ret (bus_addr chip.base QPNP_TM_REG_STATUS))
    (hnew : normalized_stage chip.subtype
      (status_field chip.subtype (reg_byte chip.base hw QPNP_TM_REG_STATUS)) = some sn)
    (hold : normalized_stage chip.subtype chip.stage = some so)
    (hgt : so < sn) :
    ∃ row t, tm[chip.thresh]? = some row ∧ row[sn - 1]? = some t ∧
      qpnp_tm_update_temp_no_adc chip hw =
        some (0,
          { chip with temp := t + 2000,
                      stage := status_field chip.subtype
                        (reg_byte chip.base hw QPNP_TM_REG_STATUS) },
          logged hw [bus_event.reg_read (bus_addr chip.base QPNP_TM_REG_STATUS)]) := by
  have hsn : sn ≤ 3 := by
    apply normalized_stage_le _ _ _ hnew
    intro hs
    rw [hs]
    have := status_field_gen1 (reg_byte chip.base hw QPNP_TM_REG_STATUS)
    omega
  obtain ⟨row, t, hrow, ht, hdec, hlo, hhi⟩ :=
    decode_temp_entry chip tm hmap htab hth sn (by omega) hsn
  refine ⟨row, t, hrow, ht, ?_⟩
  rw [update_ok chip hw hread sn so hnew hold, if_pos hgt, hdec]
  have hw1 : wrap_long (t + TEMP_STAGE_HYSTERESIS) = t + 2000 := by
    unfold TEMP_STAGE_HYSTERESIS
    apply wrap_long_id <;> omega
  simp [hw1]

/-- Witness of C1: GEN1, threshold set 0, stored stage 0, the status register reports
stage 2: the temperature becomes 125000 + 2000. -/
theorem heating_rule_witness :
    (∃ row t, temp_map_gen1[(chip_gen1 0 0 37000).thresh]? = some row ∧
      row[2 - 1]? = some t ∧
      qpnp_tm_update_temp_no_adc (chip_gen1 0 0 37000) (hw_regs 2 0) =
        some (0,
          { (chip_gen1 0 0 37000) with
            temp := t + 2000,
            stage := status_field (chip_gen1 0 0 37000).subtype
              (reg_byte (chip_gen1 0 0 37000).base (hw_regs 2 0) QPNP_TM_REG_STATUS) },
          logged (hw_regs 2 0)
            [bus_event.reg_read (bus_addr (chip_gen1 0 0 37000).base QPNP_TM_REG_STATUS)])) ∧
    (qpnp_tm_update_temp_no_adc (chip_gen1 0 0 37000) (hw_regs 2 0)).map
      (fun r => (r.1, r.2.1.temp, r.2.1.stage)) = some (0, 125000 + 2000, 2) :=
  ⟨heating_rule (chip_gen1 0 0 37000) (hw_regs 2 0) temp_map_gen1 2 0 rfl (Or.inl rfl)
      (by decide) (by decide) (by decide) (by decide) (by decide), by decide⟩

/-- C2 (cooling rule): with a calibration table selected, a threshold set in 0..3, a stored
stage that is a stage of the hardware generation (at most 3 for GEN1, a state with a map
entry for GEN2) and a successful status read, if the normalized new stage is strictly less
than the normalized stored stage, `qpnp_tm_update_temp_no_adc` returns 0 and leaves the
stored temperature at exactly `temp_map[thresh][(stage_new + 1) - 1]` minus 2000,
unclamped. -/
theorem cooling_rule (chip : qpnp_tm_chip) (hw : Platform) (tm : List (List Int))
    (sn so : Nat)
    (hmap : chip.temp_map = some tm) (htab : tm = temp_map_gen1 ∨ tm = temp_map_gen2_v1)
    (hth : chip.thresh ≤ 3)
    (hstage : chip.subtype = QPNP_TM_SUBTYPE_GEN1 → chip.stage ≤ 3)
    (hread : 0 ≤ hw.read_ret (bus_addr chip.base QPNP_TM_REG_STATUS))
    (hnew : normalized_stage chip.subtype
      (status_field chip.subtype (reg_byte chip.base hw QPNP_TM_REG_STATUS)) = some sn)
    (hold : normalized_stage chip.subtype chip.stage = some so)
    (hlt : sn < so) :
    ∃ row t, tm[chip.thresh]? = some row ∧ row[(sn + 1) - 1]? = some t ∧
      qpnp_tm_update_temp_no_adc chip hw =
        some (0,
          { chip with temp := t - 2000,
                      stage := status_field chip.subtype
                        (reg_byte chip.base hw QPNP_TM_REG_STATUS) },
          logged hw [bus_event.reg_read (bus_addr chip.base QPNP_TM_REG_STATUS)]) := by
  have hso : so ≤ 3 := normalized_stage_le _ _ _ hold hstage
  obtain ⟨row, t, hrow, ht, hdec, hlo, hhi⟩ :=
    decode_temp_entry chip tm hmap htab hth (sn + 1) (by omega) (by omega)
  refine ⟨row, t, hrow, ht, ?_⟩
  rw [update_ok chip hw hread sn so hnew hold, if_neg (by omega), if_pos hlt, hdec]
  have hw1 : wrap_long (t - TEMP_STAGE_HYSTERESIS) = t - 2000 := by
    unfold TEMP_STAGE_HYSTERESIS
    apply wrap_long_id <;> omega
  simp [hw1]

/-- Witness of C2: GEN1, threshold set 0, stored stage 2, the status register reports
stage 1: the temperature becomes 125000 - 2000, the trip point of stage 2 minus 2000. -/
theorem cooling_rule_witness :
    (∃ row t, temp_map_gen1[(chip_gen1 0 2 127000).thresh]? = some row ∧
      row[(1 + 1) - 1]? = some t ∧
      qpnp_tm_update_temp_no_adc (chip_gen1 0 2 127000) (hw_regs 1 0) =
        some (0,
          { (chip_gen1 0 2 127000) with
            temp := t - 2000,
            stage := status_field (chip_gen1 0 2 127000).subtype
              (reg_byte (chip_gen1 0 2 127000).base (hw_regs 1 0) QPNP_TM_REG_STATUS) },
          logged (hw_regs 1 0)
            [bus_event.reg_read (bus_addr (chip_gen1 0 2 127000).base QPNP_TM_REG_STATUS)])) ∧
    (qpnp_tm_update_temp_no_adc (chip_gen1 0 2 127000) (hw_regs 1 0)).map
      (fun r => (r.1, r.2.1.temp, r.2.1.stage)) = some (0, 125000 - 2000, 1) :=
  ⟨cooling_rule (chip_gen1 0 2 127000) (hw_regs 1 0) temp_map_gen1 1 2 rfl (Or.inl rfl)
      (by decide) (by decide) (by decide) (by decide) (by decide) (by decide), by decide⟩

/-- C3 (no-change rule): after a successful status read, (a) if the normalized new stage
equals the normalized stored stage, `qpnp_tm_update_temp_no_adc` returns 0 and changes
nothing but the stored raw stage, so the stored temperature is unchanged, also when the raw
GEN2 states differ; (b) if an update returned 0, a following update that reads the same
status byte returns 0 and leaves the temperature and the stage of the first. -/
theorem no_change_rule (chip : qpnp_tm_chip) (hw : Platform)
    (hread : 0 ≤ hw.read_ret (bus_addr chip.base QPNP_TM_REG_STATUS)) :
    (∀ s : Nat,
      normalized_stage chip.subtype
        (status_field chip.subtype (reg_byte chip.base hw QPNP_TM_REG_STATUS)) = some s →
      normalized_stage chip.subtype chip.stage = some s →
      qpnp_tm_update_temp_no_adc chip hw =
        some (0,
          { chip with
            stage := status_field chip.subtype (reg_byte chip.base hw QPNP_TM_REG_STATUS) },
          logged hw [bus_event.reg_read (bus_addr chip.base QPNP_TM_REG_STATUS)])) ∧
    (∀ (c1 : qpnp_tm_chip) (hw1 hw2 : Platform),
      qpnp_tm_update_temp_no_adc chip hw = some (0, c1, hw1) →
      0 ≤ hw2.read_ret (bus_addr c1.base QPNP_TM_REG_STATUS) →
      reg_byte c1.base hw2 QPNP_TM_REG_STATUS = reg_byte chip.base hw QPNP_TM_REG_STATUS →
      qpnp_tm_update_temp_no_adc c1 hw2 =
        some (0, c1, logged hw2 [bus_event.reg_read (bus_addr c1.base QPNP_TM_REG_STATUS)])) := by
  constructor
  · intro s hnew hold
    rw [update_ok chip hw hread s s hnew hold]
    simp
  · intro c1 hw1 hw2 h1 hread2 hbyte
    obtain ⟨hframe, hzero⟩ := update_result chip c1 hw hw1 0 h1
    obtain ⟨-, hst⟩ := hzero rfl
    have hsub : c1.subtype = chip.subtype := by rw [hframe]
    obtain ⟨s, hs⟩ := normalized_stage_defined c1.subtype
      (status_field c1.subtype (reg_byte c1.base hw2 QPNP_TM_REG_STATUS))
      (status_field_le _ _)
    have hs2 : normalized_stage c1.subtype c1.stage = some s := by
      rw [hst, ← hbyte, ← hsub]
      exact hs
    rw [update_ok c1 hw2 hread2 s s hs hs2]
    have hst2 : status_field c1.subtype (reg_byte c1.base hw2 QPNP_TM_REG_STATUS) = c1.stage := by
      rw [hst, ← hbyte, ← hsub]
    simp [hst2]

/-- Witness of C3: GEN2, stored raw state 1, the status register reports raw state 2 (both
stage 1): the update returns 0 and the temperature 92000 stays; a second update reading the
same byte leaves the chip of the first. -/
theorem no_change_rule_witness :
    normalized_stage QPNP_TM_SUBTYPE_GEN2 1 = some 1 ∧
    normalized_stage QPNP_TM_SUBTYPE_GEN2 2 = some 1 ∧
    qpnp_tm_update_temp_no_adc (chip_gen2 0 1 92000) (hw_regs 0x20 0) =
      some (0,
        { (chip_gen2 0 1 92000) with
          stage := status_field (chip_gen2 0 1 92000).subtype
            (reg_byte (chip_gen2 0 1 92000).base (hw_regs 0x20 0) QPNP_TM_REG_STATUS) },
        logged (hw_regs 0x20 0)
          [bus_event.reg_read (bus_addr (chip_gen2 0 1 92000).base QPNP_TM_REG_STATUS)]) ∧
    qpnp_tm_update_temp_no_adc (chip_gen2 0 2 92000) (hw_regs 0x20 0) =
      some (0, chip_gen2 0 2 92000,
        logged (hw_regs 0x20 0)
          [bus_event.reg_read (bus_addr (chip_gen2 0 2 92000).base QPNP_TM_REG_STATUS)]) :=
  ⟨by decide, by decide,
   (no_change_rule (chip_gen2 0 1 92000) (hw_regs 0x20 0) (by decide)).1 1
     (by decide) (by decide),
   (no_change_rule (chip_gen2 0 1 92000) (hw_regs 0x20 0) (by decide)).2
     (chip_gen2 0 2 92000) (logged (hw_regs 0x20 0) [bus_event.reg_read 0x08])
     (hw_regs 0x20 0) rfl (by decide) (by decide)⟩

theorem init_fail_first (chip : qpnp_tm_chip) (hw : Platform)
    (h1 : hw.read_ret (bus_addr chip.base QPNP_TM_REG_SHUTDOWN_CTRL1) < 0) :
    qpnp_tm_init chip hw =
      some (hw.read_ret (bus_addr chip.base QPNP_TM_REG_SHUTDOWN_CTRL1), chip,
        logged hw [bus_event.reg_read (bus_addr chip.base QPNP_TM_REG_SHUTDOWN_CTRL1)]) := by
  unfold qpnp_tm_init
  rw [qpnp_tm_read_fail chip hw _ _ h1]
  simp [h1]

theorem init_fail_second (chip : qpnp_tm_chip) (hw : Platform)
    (h1 : 0 ≤ hw.read_ret (bus_addr chip.base QPNP_TM_REG_SHUTDOWN_CTRL1))
    (h2 : hw.read_ret (bus_addr chip.base QPNP_TM_REG_STATUS) < 0) :
    qpnp_tm_init chip hw =
      some (hw.read_ret (bus_addr chip.base QPNP_TM_REG_STATUS),
        { chip with
          thresh := reg_byte chip.base hw QPNP_TM_REG_SHUTDOWN_CTRL1 &&&
            SHUTDOWN_CTRL1_THRESHOLD_MASK,
          temp := DEFAULT_TEMP },
        logged hw [bus_event.reg_read (bus_addr chip.base QPNP_TM_REG_SHUTDOWN_CTRL1),
          bus_event.reg_read (bus_addr chip.base QPNP_TM_REG_STATUS)]) := by
  unfold qpnp_tm_init
  rw [qpnp_tm_read_ok chip hw _ _ h1]
  simp only [lt_self_iff_false, if_false]
  rw [get_temp_stage_fail]
  · simp [h2]
  · simpa using h2

/-- What `qpnp_tm_init` does once both register reads have succeeded. -/
theorem init_ok (chip : qpnp_tm_chip) (hw : Platform)
    (h1 : 0 ≤ hw.read_ret (bus_addr chip.base QPNP_TM_REG_SHUTDOWN_CTRL1))
    (h2 : 0 ≤ hw.read_ret (bus_addr chip.base QPNP_TM_REG_STATUS)) :
    qpnp_tm_init chip hw =
      (normalized_stage chip.subtype
        (status_field chip.subtype (reg_byte chip.base hw QPNP_TM_REG_STATUS))).bind
      fun stage =>
      (if stage ≠ 0 then
        qpnp_tm_decode_temp
          { chip with
            thresh := reg_byte chip.base hw QPNP_TM_REG_SHUTDOWN_CTRL1 &&&
              SHUTDOWN_CTRL1_THRESHOLD_MASK,
            temp := DEFAULT_TEMP,
            stage := status_field chip.subtype (reg_byte chip.base hw QPNP_TM_REG_STATUS) }
          stage
       else some DEFAULT_TEMP).bind
      fun t =>
      some (
        if hw.write_ret (bus_addr chip.base QPNP_TM_REG_SHUTDOWN_CTRL1)
            (ctrl1_byte (reg_byte chip.base hw QPNP_TM_REG_SHUTDOWN_CTRL1) chip.init_thresh) < 0
        then
          (hw.write_ret (bus_addr chip.base QPNP_TM_REG_SHUTDOWN_CTRL1)
            (ctrl1_byte (reg_byte chip.base hw QPNP_TM_REG_SHUTDOWN_CTRL1) chip.init_thresh),
           { chip with
             thresh := chip.init_thresh,
             temp := t,
             stage := status_field chip.subtype (reg_byte chip.base hw QPNP_TM_REG_STATUS) },
           logged hw [bus_event.reg_read (bus_addr chip.base QPNP_TM_REG_SHUTDOWN_CTRL1),
             bus_event.reg_read (bus_addr chip.base QPNP_TM_REG_STATUS),
             bus_event.reg_write (bus_addr chip.base QPNP_TM_REG_SHUTDOWN_CTRL1)
               (ctrl1_byte (reg_byte chip.base hw QPNP_TM_REG_SHUTDOWN_CTRL1) chip.init_thresh)])
        else
          (hw.write_ret (bus_addr chip.base QPNP_TM_REG_ALARM_CTRL)
            (ALARM_CTRL_FORCE_ENABLE % 2 ^ 8),
           { chip with
             thresh := chip.init_thresh,
             temp := t,
             stage := status_field chip.subtype (reg_byte chip.base hw QPNP_TM_REG_STATUS) },
           logged hw [bus_event.reg_read (bus_addr chip.base QPNP_TM_REG_SHUTDOWN_CTRL1),
             bus_event.reg_read (bus_addr chip.base QPNP_TM_REG_STATUS),
             bus_event.reg_write (bus_addr chip.base QPNP_TM_REG_SHUTDOWN_CTRL1)
               (ctrl1_byte (reg_byte chip.base hw QPNP_TM_REG_SHUTDOWN_CTRL1) chip.init_thresh),
             bus_event.reg_write (bus_addr chip.base QPNP_TM_REG_ALARM_CTRL)
               (ALARM_CTRL_FORCE_ENABLE % 2 ^ 8)])) := by
  have hcast : ¬ ((status_field chip.subtype (reg_byte chip.base hw QPNP_TM_REG_STATUS) : Nat)
      : Int) < 0 := by omega
  unfold qpnp_tm_init ctrl1_byte
  rw [qpnp_tm_read_ok chip hw _ _ h1]
  simp only [lt_self_iff_false, if_false]
  rw [get_temp_stage_ok]
  · simp only [reg_byte_logged, logged_logged, if_neg hcast, Int.toNat_ofNat]
    cases hn : normalized_stage chip.subtype
        (status_field chip.subtype (reg_byte chip.base hw QPNP_TM_REG_STATUS)) with
    | none =>
      unfold normalized_stage at hn
      by_cases hs : chip.subtype = QPNP_TM_SUBTYPE_GEN1
      · simp [hs] at hn
      · simp only [hs, if_false] at hn
        simp [hs, hn]
    | some stage =>
      have hn' : (if chip.subtype = QPNP_TM_SUBTYPE_GEN1 then
            some (status_field chip.subtype (reg_byte chip.base hw QPNP_TM_REG_STATUS))
          else alarm_state_map[status_field chip.subtype
            (reg_byte chip.base hw QPNP_TM_REG_STATUS)]?) = some stage := hn
      simp only [hn', Option.some_bind]
      by_cases h0 : stage = 0
      · simp only [h0, ne_eq, not_true_eq_false, if_false, Option.some_bind]
        simp only [qpnp_tm_write, regmap_write, logged_logged, logged_write_ret]
        split <;> simp
      · simp only [ne_eq, h0, not_false_eq_true, if_true]
        cases hd : qpnp_tm_decode_temp
            { chip with
              thresh := reg_byte chip.base hw QPNP_TM_REG_SHUTDOWN_CTRL1 &&&
                SHUTDOWN_CTRL1_THRESHOLD_MASK,
              temp := DEFAULT_TEMP,
              stage := status_field chip.subtype
                (reg_byte chip.base hw QPNP_TM_REG_STATUS) } stage with
        | none => simp
        | some t =>
          simp only [Option.some_bind]
          simp only [qpnp_tm_write, regmap_write, logged_logged, logged_write_ret]
          split <;> simp
  · simpa using h2

/-- A call of `qpnp_tm_init` that does not return an error: both reads and the first write
succeeded, and the chip and the trace are as follows. -/
theorem init_success (chip c1 : qpnp_tm_chip) (hw hw1 : Platform) (ret : Int)
    (h : qpnp_tm_init chip hw = some (ret, c1, hw1)) (hret : 0 ≤ ret) :
    0 ≤ hw.read_ret (bus_addr chip.base QPNP_TM_REG_SHUTDOWN_CTRL1) ∧
    0 ≤ hw.read_ret (bus_addr chip.base QPNP_TM_REG_STATUS) ∧
    ∃ stage t,
      normalized_stage chip.subtype
        (status_field chip.subtype (reg_byte chip.base hw QPNP_TM_REG_STATUS)) = some stage ∧
      (if stage ≠ 0 then
        qpnp_tm_decode_temp
          { chip with
            thresh := reg_byte chip.base hw QPNP_TM_REG_SHUTDOWN_CTRL1 &&&
              SHUTDOWN_CTRL1_THRESHOLD_MASK,
            temp := DEFAULT_TEMP,
            stage := status_field chip.subtype (reg_byte chip.base hw QPNP_TM_REG_STATUS) }
          stage
       else some DEFAULT_TEMP) = some t ∧
      0 ≤ hw.write_ret (bus_addr chip.base QPNP_TM_REG_SHUTDOWN_CTRL1)
        (ctrl1_byte (reg_byte chip.base hw QPNP_TM_REG_SHUTDOWN_CTRL1) chip.init_thresh) ∧
      ret = hw.write_ret (bus_addr chip.base QPNP_TM_REG_ALARM_CTRL)
        (ALARM_CTRL_FORCE_ENABLE % 2 ^ 8) ∧
      c1 = { chip with
             thresh := chip.init_thresh,
             temp := t,
             stage := status_field chip.subtype (reg_byte chip.base hw QPNP_TM_REG_STATUS) } ∧
      hw1 = logged hw [bus_event.reg_read (bus_addr chip.base QPNP_TM_REG_SHUTDOWN_CTRL1),
             bus_event.reg_read (bus_addr chip.base QPNP_TM_REG_STATUS),
             bus_event.reg_write (bus_addr chip.base QPNP_TM_REG_SHUTDOWN_CTRL1)
               (ctrl1_byte (reg_byte chip.base hw QPNP_TM_REG_SHUTDOWN_CTRL1) chip.init_thresh),
             bus_event.reg_write (bus_addr chip.base QPNP_TM_REG_ALARM_CTRL)
               (ALARM_CTRL_FORCE_ENABLE % 2 ^ 8)] := by
  by_cases h1 : 0 ≤ hw.read_ret (bus_addr chip.base QPNP_TM_REG_SHUTDOWN_CTRL1)
  swap
  · rw [init_fail_first chip hw (not_le.mp h1)] at h
    simp only [Option.some.injEq, Prod.mk.injEq] at h
    omega
  by_cases h2 : 0 ≤ hw.read_ret (bus_addr chip.base QPNP_TM_REG_STATUS)
  swap
  · rw [init_fail_second chip hw h1 (not_le.mp h2)] at h
    simp only [Option.some.injEq, Prod.mk.injEq] at h
    omega
  refine ⟨h1, h2, ?_⟩
  rw [init_ok chip hw h1 h2] at h
  cases hn : normalized_stage chip.subtype
      (status_field chip.subtype (reg_byte chip.base hw QPNP_TM_REG_STATUS)) with
  | none => simp [hn] at h
  | some stage =>
    rw [hn, Option.some_bind] at h
    cases ht : (if stage ≠ 0 then
        qpnp_tm_decode_temp
          { chip with
            thresh := reg_byte chip.base hw QPNP_TM_REG_SHUTDOWN_CTRL1 &&&
              SHUTDOWN_CTRL1_THRESHOLD_MASK,
            temp := DEFAULT_TEMP,
            stage := status_field chip.subtype (reg_byte chip.base hw QPNP_TM_REG_STATUS) }
          stage
       else some DEFAULT_TEMP) with
    | none =>
      rw [ht] at h
      simp at h
    | some t =>
      rw [ht, Option.some_bind] at h
      refine ⟨stage, t, rfl, ht, ?_⟩
      split at h
      · rename_i hw1neg
        simp only [Option.some.injEq, Prod.mk.injEq] at h
        omega
      · rename_i hw1ok
        simp only [Option.some.injEq, Prod.mk.injEq] at h
        obtain ⟨hr, hc, hh⟩ := h
        exact ⟨not_lt.mp hw1ok, hr.symm, hc.symm, hh.symm⟩

set_option maxRecDepth 1000000 in
theorem ctrl1_byte_fin : ∀ b : Fin 256, ∀ c : Fin 4,
    ctrl1_byte b.val c.val % 4 = c.val ∧
    ctrl1_byte b.val c.val / 4 % 16 = b.val / 4 % 16 ∧
    ctrl1_byte b.val c.val / 64 = 0 := by
  decide

theorem and3 (b : Nat) : b &&& SHUTDOWN_CTRL1_THRESHOLD_MASK = b % 4 := by
  have h : SHUTDOWN_CTRL1_THRESHOLD_MASK = 2 ^ 2 - 1 := by decide
  rw [h, Nat.and_pow_two_sub_one_eq_mod]

theorem restore_eq (chip : qpnp_tm_chip) (hw : Platform) :
    qpnp_tm_restore chip hw =
      if chip.irq > 0 then
        if hw.request_irq_ret < 0 then
          some (hw.request_irq_ret, chip,
            logged hw [bus_event.irq_request chip.irq
              ((if chip.subtype = QPNP_TM_SUBTYPE_GEN2 then
                  IRQF_TRIGGER_RISING ||| IRQF_TRIGGER_FALLING
                else IRQF_TRIGGER_RISING) ||| IRQF_ONESHOT)])
        else
          qpnp_tm_init chip
            (logged hw [bus_event.irq_request chip.irq
              ((if chip.subtype = QPNP_TM_SUBTYPE_GEN2 then
                  IRQF_TRIGGER_RISING ||| IRQF_TRIGGER_FALLING
                else IRQF_TRIGGER_RISING) ||| IRQF_ONESHOT)])
      else qpnp_tm_init chip hw := by
  simp only [qpnp_tm_restore, devm_request_threaded_irq]

/-- A successful `qpnp_tm_init` does not depend on the stage, temperature and threshold set
stored before the call. -/
theorem init_forgets (chip c1 : qpnp_tm_chip) (hw hw1 : Platform) (ret : Int) (s th : Nat)
    (t : Int) (h : qpnp_tm_init chip hw = some (ret, c1, hw1)) (hret : 0 ≤ ret) :
    qpnp_tm_init { chip with stage := s, temp := t, thresh := th } hw = some (ret, c1, hw1) := by
  obtain ⟨h1, h2, -⟩ := init_success chip c1 hw hw1 ret h hret
  rw [init_ok chip hw h1 h2] at h
  have e := init_ok { chip with stage := s, temp := t, thresh := th } hw h1 h2
  rw [e]
  exact h

/-- C4, as the code has it: `qpnp_tm_restore` runs the whole of `qpnp_tm_init`.  After a
call that returns no error the stored stage is the stage just read from the status register
and the stored temperature is derived from it anew (`DEFAULT_TEMP` when the normalized
stage is 0, otherwise the lookup of that stage for the threshold set read from
SHUTDOWN_CTRL1, without hysteresis); the outcome is the same for any stage and temperature
stored before the call, and only `thresh`, `temp` and `stage` of the chip change. -/
theorem restore_reinitializes (chip c1 : qpnp_tm_chip) (hw hw1 : Platform) (ret : Int)
    (h : qpnp_tm_restore chip hw = some (ret, c1, hw1)) (hret : 0 ≤ ret) :
    c1.stage = status_field chip.subtype (reg_byte chip.base hw QPNP_TM_REG_STATUS) ∧
    (∃ stage,
      normalized_stage chip.subtype
        (status_field chip.subtype (reg_byte chip.base hw QPNP_TM_REG_STATUS)) = some stage ∧
      (stage = 0 → c1.temp = DEFAULT_TEMP) ∧
      (stage ≠ 0 →
        qpnp_tm_decode_temp
          { chip with
            thresh := reg_byte chip.base hw QPNP_TM_REG_SHUTDOWN_CTRL1 &&&
              SHUTDOWN_CTRL1_THRESHOLD_MASK }
          stage = some c1.temp)) ∧
    (∀ (s : Nat) (t : Int),
      qpnp_tm_restore { chip with stage := s, temp := t } hw = some (ret, c1, hw1)) ∧
    c1 = { chip with thresh := chip.init_thresh, temp := c1.temp, stage := c1.stage } := by
  have key : ∀ hw0 : Platform, hw0.reg_val = hw.reg_val →
      qpnp_tm_init chip hw0 = some (ret, c1, hw1) →
      c1.stage = status_field chip.subtype (reg_byte chip.base hw QPNP_TM_REG_STATUS) ∧
      (∃ stage,
        normalized_stage chip.subtype
          (status_field chip.subtype (reg_byte chip.base hw QPNP_TM_REG_STATUS))
            = some stage ∧
        (stage = 0 → c1.temp = DEFAULT_TEMP) ∧
        (stage ≠ 0 →
          qpnp_tm_decode_temp
            { chip with
              thresh := reg_byte chip.base hw QPNP_TM_REG_SHUTDOWN_CTRL1 &&&
                SHUTDOWN_CTRL1_THRESHOLD_MASK }
            stage = some c1.temp)) ∧
      c1 = { chip with thresh := chip.init_thresh, temp := c1.temp, stage := c1.stage } := by
    intro hw0 hv hi
    have hb : ∀ a, reg_byte chip.base hw0 a = reg_byte chip.base hw a := by
      intro a
      simp only [reg_byte, hv]
    obtain ⟨-, -, stage, t, hn, ht, -, -, hc, -⟩ := init_success chip c1 hw0 hw1 ret hi hret
    simp only [hb] at hn ht hc
    subst hc
    refine ⟨rfl, ⟨stage, hn, ?_, ?_⟩, rfl⟩
    · intro h0
      simp only [h0, ne_eq, not_true_eq_false, if_false, Option.some.injEq] at ht
      exact ht.symm
    · intro h0
      simp only [ne_eq, h0, not_false_eq_true, if_true] at ht
      simpa [qpnp_tm_decode_temp] using ht
  rw [restore_eq] at h
  by_cases hirq : chip.irq > 0
  · simp only [hirq, if_true] at h
    by_cases hq : hw.request_irq_ret < 0
    · simp only [hq, if_true, Option.some.injEq, Prod.mk.injEq] at h
      omega
    · simp only [hq, if_false] at h
      obtain ⟨k1, k2, k3⟩ := key _ (by simp) h
      refine ⟨k1, k2, ?_, k3⟩
      intro s t
      rw [restore_eq]
      simp only [hirq, if_true, hq, if_false]
      exact init_forgets chip c1 _ hw1 ret s chip.thresh t h hret
  · simp only [hirq, if_false] at h
    obtain ⟨k1, k2, k3⟩ := key hw rfl h
    refine ⟨k1, k2, ?_, k3⟩
    intro s t
    rw [restore_eq]
    simp only [hirq, if_false]
    exact init_forgets chip c1 hw hw1 ret s chip.thresh t h hret

/-- Counterexample to C4 as stated: a GEN1 chip whose temperature 107000 was estimated with
hysteresis at stage 1 is restored while the status register still reads stage 1; the call
returns 0 and leaves the stage at 1 but the temperature at 105000.  With the status register
reading stage 2 the call returns 0 and leaves stage 2 and temperature 125000. -/
theorem restore_preserves_counterexample :
    ((chip_gen1 0 1 107000).stage, (chip_gen1 0 1 107000).temp) = (1, 107000) ∧
    (qpnp_tm_restore (chip_gen1 0 1 107000) (hw_regs 1 0)).map
      (fun r => (r.1, r.2.1.stage, r.2.1.temp)) = some (0, 1, 105000) ∧
    (qpnp_tm_restore (chip_gen1 0 1 107000) (hw_regs 2 0)).map
      (fun r => (r.1, r.2.1.stage, r.2.1.temp)) = some (0, 2, 125000) := by
  decide

/-- Witness of C4 as amended: the restore of the counterexample. -/
theorem restore_reinitializes_witness :
    (chip_gen1 0 1 105000).stage =
      status_field (chip_gen1 0 1 107000).subtype
        (reg_byte (chip_gen1 0 1 107000).base (hw_regs 1 0) QPNP_TM_REG_STATUS) ∧
    (∀ (s : Nat) (t : Int),
      qpnp_tm_restore { (chip_gen1 0 1 107000) with stage := s, temp := t } (hw_regs 1 0) =
        some (0, chip_gen1 0 1 105000,
          logged (hw_regs 1 0) [bus_event.reg_read 0x40, bus_event.reg_read 0x08,
            bus_event.reg_write 0x40 0, bus_event.reg_write 0x46 0x80])) :=
  ⟨(restore_reinitializes (chip_gen1 0 1 107000) (chip_gen1 0 1 105000) (hw_regs 1 0)
      (logged (hw_regs 1 0) [bus_event.reg_read 0x40, bus_event.reg_read 0x08,
        bus_event.reg_write 0x40 0, bus_event.reg_write 0x46 0x80]) 0 rfl (by decide)).1,
   (restore_reinitializes (chip_gen1 0 1 107000) (chip_gen1 0 1 105000) (hw_regs 1 0)
      (logged (hw_regs 1 0) [bus_event.reg_read 0x40, bus_event.reg_read 0x08,
        bus_event.reg_write 0x40 0, bus_event.reg_write 0x46 0x80]) 0 rfl (by decide)).2.2.1⟩

/-- For the two calibration tables the lookup reads no entry outside the table, whatever
the threshold set and the stage. -/
theorem decode_temp_defined (chip : qpnp_tm_chip) (stage : Nat)
    (htab : chip.temp_map = none ∨ chip.temp_map = some temp_map_gen1 ∨
      chip.temp_map = some temp_map_gen2_v1) :
    ∃ t, qpnp_tm_decode_temp chip stage = some t := by
  unfold qpnp_tm_decode_temp
  rcases htab with h | h | h
  · rw [h]
    exact ⟨0, rfl⟩
  · rw [h]
    simp only []
    split
    · exact ⟨0, rfl⟩
    · rename_i hc
      simp only [THRESH_COUNT, STAGE_COUNT, not_or, not_le, not_lt, ge_iff_le, gt_iff_lt] at hc
      obtain ⟨hth, h0, h3⟩ := hc
      generalize chip.thresh = th at hth
      interval_cases th <;> interval_cases stage <;> simp [temp_map_gen1] at h0 ⊢
  · rw [h]
    simp only []
    split
    · exact ⟨0, rfl⟩
    · rename_i hc
      simp only [THRESH_COUNT, STAGE_COUNT, not_or, not_le, not_lt, ge_iff_le, gt_iff_lt] at hc
      obtain ⟨hth, h0, h3⟩ := hc
      generalize chip.thresh = th at hth
      interval_cases th <;> interval_cases stage <;> simp [temp_map_gen2_v1] at h0 ⊢

/-- With a calibration table selected and a stored stage that has a normalized stage, an
update whose status read succeeds returns 0. -/
theorem update_returns (chip : qpnp_tm_chip) (hw : Platform)
    (htab : chip.temp_map = none ∨ chip.temp_map = some temp_map_gen1 ∨
      chip.temp_map = some temp_map_gen2_v1)
    (hst : chip.subtype = QPNP_TM_SUBTYPE_GEN1 ∨ chip.stage < 8)
    (hread : 0 ≤ hw.read_ret (bus_addr chip.base QPNP_TM_REG_STATUS)) :
    ∃ t, qpnp_tm_update_temp_no_adc chip hw =
      some (0,
        { chip with
          temp := t,
          stage := status_field chip.subtype (reg_byte chip.base hw QPNP_TM_REG_STATUS) },
        logged hw [bus_event.reg_read (bus_addr chip.base QPNP_TM_REG_STATUS)]) := by
  obtain ⟨sn, hn⟩ := normalized_stage_defined chip.subtype
    (status_field chip.subtype (reg_byte chip.base hw QPNP_TM_REG_STATUS))
    (status_field_le _ _)
  have ho : ∃ so, normalized_stage chip.subtype chip.stage = some so := by
    rcases hst with h | h
    · exact ⟨chip.stage, by simp [normalized_stage, h]⟩
    · exact normalized_stage_defined _ _ h
  obtain ⟨so, ho⟩ := ho
  rw [update_ok chip hw hread sn so hn ho]
  split
  · obtain ⟨t, ht⟩ := decode_temp_defined chip sn htab
    exact ⟨wrap_long (t + TEMP_STAGE_HYSTERESIS), by simp [ht]⟩
  · split
    · obtain ⟨t, ht⟩ := decode_temp_defined chip (sn + 1) htab
      exact ⟨wrap_long (t - TEMP_STAGE_HYSTERESIS), by simp [ht]⟩
    · exact ⟨chip.temp, by simp⟩

/-- Counterexample to C5 as stated: an initialized GEN1 chip without ADC channel, a non-null
output holding 0, and a bus on which the status read fails with -5: `qpnp_tm_get_temp`
returns -5, not 0, and the output still holds 0. -/
theorem get_temp_never_fails_counterexample :
    IS_ERR (chip_gen1 0 0 37000).adc = true ∧
    (qpnp_tm_get_temp (chip_gen1 0 0 37000) (some 0) (hw_read_fails 0 0)).map
      (fun r => (r.1, r.2.1)) = some (-5, some 0) := by
  decide

/-- C5, as the code has it: on the stage-estimation path (no ADC channel, a calibration
table selected, a stored stage of the hardware generation) `qpnp_tm_get_temp` with a
non-null output returns 0 and delivers the stored temperature whenever the status register
read succeeds; when that read fails it returns the error code of the read, leaves the
output as it was and the chip unchanged. -/
theorem get_temp_no_adc (chip : qpnp_tm_chip) (hw : Platform) (out : Int)
    (hadc : IS_ERR chip.adc = true)
    (htab : chip.temp_map = some temp_map_gen1 ∨ chip.temp_map = some temp_map_gen2_v1)
    (hst : chip.subtype = QPNP_TM_SUBTYPE_GEN1 ∨ chip.stage < 8) :
    (0 ≤ hw.read_ret (bus_addr chip.base QPNP_TM_REG_STATUS) →
      ∃ c1, qpnp_tm_update_temp_no_adc chip hw =
          some (0, c1, logged hw [bus_event.reg_read (bus_addr chip.base QPNP_TM_REG_STATUS)]) ∧
        qpnp_tm_get_temp chip (some out) hw =
          some (0, some (wrap_int c1.temp), c1,
            logged hw [bus_event.reg_read (bus_addr chip.base QPNP_TM_REG_STATUS)])) ∧
    (hw.read_ret (bus_addr chip.base QPNP_TM_REG_STATUS) < 0 →
      qpnp_tm_get_temp chip (some out) hw =
        some (hw.read_ret (bus_addr chip.base QPNP_TM_REG_STATUS), some out, chip,
          logged hw [bus_event.reg_read (bus_addr chip.base QPNP_TM_REG_STATUS)])) := by
  constructor
  · intro hread
    obtain ⟨t, ht⟩ := update_returns chip hw (Or.inr htab) hst hread
    refine ⟨_, ht, ?_⟩
    simp [qpnp_tm_get_temp, hadc, ht]
  · intro hfail
    simp [qpnp_tm_get_temp, hadc, update_fail chip hw hfail, hfail]

/-- Witness of C5 as amended: the GEN1 chip at stage 0 and 37000 mC, once with a status
read that succeeds and once with one that fails with -5. -/
theorem get_temp_no_adc_witness :
    (∃ c1, qpnp_tm_update_temp_no_adc (chip_gen1 0 0 37000) (hw_regs 0 0) =
          some (0, c1, logged (hw_regs 0 0)
            [bus_event.reg_read (bus_addr (chip_gen1 0 0 37000).base QPNP_TM_REG_STATUS)]) ∧
        qpnp_tm_get_temp (chip_gen1 0 0 37000) (some 0) (hw_regs 0 0) =
          some (0, some (wrap_int c1.temp), c1,
            logged (hw_regs 0 0)
              [bus_event.reg_read
                (bus_addr (chip_gen1 0 0 37000).base QPNP_TM_REG_STATUS)])) ∧
    qpnp_tm_get_temp (chip_gen1 0 0 37000) (some 0) (hw_read_fails 0 0) =
      some ((hw_read_fails 0 0).read_ret
          (bus_addr (chip_gen1 0 0 37000).base QPNP_TM_REG_STATUS), some 0,
        chip_gen1 0 0 37000,
        logged (hw_read_fails 0 0)
          [bus_event.reg_read
            (bus_addr (chip_gen1 0 0 37000).base QPNP_TM_REG_STATUS)]) :=
  ⟨(get_temp_no_adc (chip_gen1 0 0 37000) (hw_regs 0 0) 0 (by decide) (Or.inl rfl)
      (Or.inl rfl)).1 (by decide),
   (get_temp_no_adc (chip_gen1 0 0 37000) (hw_read_fails 0 0) 0 (by decide) (Or.inl rfl)
      (Or.inl rfl)).2 (by decide)⟩

/-- C6: the calibration lookup is strictly increasing in the stage.  For both tables, every
threshold set in 0..3 and all stages `1 ≤ s1 < s2 ≤ 3`, `qpnp_tm_decode_temp` at `s1` is
strictly less than at `s2`. -/
theorem lookup_strictly_increasing (chip : qpnp_tm_chip) (s1 s2 : Nat)
    (htab : chip.temp_map = some temp_map_gen1 ∨ chip.temp_map = some temp_map_gen2_v1)
    (hth : chip.thresh ≤ 3) (h1 : 1 ≤ s1) (h12 : s1 < s2) (h2 : s2 ≤ 3) :
    ∃ a b, qpnp_tm_decode_temp chip s1 = some a ∧ qpnp_tm_decode_temp chip s2 = some b ∧
      a < b := by
  unfold qpnp_tm_decode_temp
  generalize chip.thresh = th at hth
  rcases htab with h | h <;> rw [h] <;> interval_cases th <;> interval_cases s2 <;>
    interval_cases s1 <;>
    simp [temp_map_gen1, temp_map_gen2_v1, THRESH_COUNT, STAGE_COUNT]

/-- Witness of C6: GEN2 table, threshold set 3, stages 1 and 3: 105000 < 155000. -/
theorem lookup_strictly_increasing_witness :
    ∃ a b, qpnp_tm_decode_temp (chip_gen2 3 0 37000) 1 = some a ∧
      qpnp_tm_decode_temp (chip_gen2 3 0 37000) 3 = some b ∧ a < b :=
  lookup_strictly_increasing (chip_gen2 3 0 37000) 1 3 (Or.inr rfl) (by decide) (by decide)
    (by decide) (by decide)

/-- C7: the calibration lookup returns the sentinel 0 exactly on invalid inputs.  With no
table or one of the two calibration tables selected, `qpnp_tm_decode_temp` returns 0 if and
only if the stage is 0, the stage exceeds 3, the threshold set is outside 0..3 or no table
is selected; for a threshold set in 0..3 and a stage in 1..3 it returns the table entry
`temp_map[thresh][stage - 1]`, which is not 0. -/
theorem lookup_sentinel (chip : qpnp_tm_chip) (stage : Nat)
    (htab : chip.temp_map = none ∨ chip.temp_map = some temp_map_gen1 ∨
      chip.temp_map = some temp_map_gen2_v1) :
    (qpnp_tm_decode_temp chip stage = some 0 ↔
      (stage = 0 ∨ stage > 3 ∨ chip.thresh > 3 ∨ chip.temp_map = none)) ∧
    (∀ tm, chip.temp_map = some tm → chip.thresh ≤ 3 → 1 ≤ stage → stage ≤ 3 →
      ∃ row t, tm[chip.thresh]? = some row ∧ row[stage - 1]? = some t ∧
        qpnp_tm_decode_temp chip stage = some t ∧ t ≠ 0) := by
  have entry : ∀ tm, chip.temp_map = some tm → chip.thresh ≤ 3 → 1 ≤ stage → stage ≤ 3 →
      ∃ row t, tm[chip.thresh]? = some row ∧ row[stage - 1]? = some t ∧
        qpnp_tm_decode_temp chip stage = some t ∧ t ≠ 0 := by
    intro tm hmap hth h1 h3
    have htm : tm = temp_map_gen1 ∨ tm = temp_map_gen2_v1 := by
      rcases htab with h | h | h
      · rw [h] at hmap
        exact absurd hmap (by simp)
      · rw [h] at hmap
        exact Or.inl (Option.some.inj hmap).symm
      · rw [h] at hmap
        exact Or.inr (Option.some.inj hmap).symm
    obtain ⟨row, t, hr, ht, hd, hlo, -⟩ := decode_temp_entry chip tm hmap htm hth stage h1 h3
    exact ⟨row, t, hr, ht, hd, by omega⟩
  refine ⟨⟨fun h => ?_, fun h => ?_⟩, entry⟩
  · by_contra hc
    simp only [not_or, not_lt, gt_iff_lt] at hc
    obtain ⟨h0, h3, hth, hnone⟩ := hc
    obtain ⟨tm, hmap⟩ := Option.ne_none_iff_exists'.mp hnone
    obtain ⟨row, t, -, -, hd, hne⟩ := entry tm hmap hth (by omega) h3
    rw [hd] at h
    exact hne (Option.some.inj h)
  · unfold qpnp_tm_decode_temp
    cases hmap : chip.temp_map with
    | none => rfl
    | some tm =>
      have hcond : chip.thresh ≥ THRESH_COUNT ∨ stage = 0 ∨ stage > STAGE_COUNT := by
        simp only [THRESH_COUNT, STAGE_COUNT]
        rcases h with h | h | h | h
        · exact Or.inr (Or.inl h)
        · exact Or.inr (Or.inr h)
        · exact Or.inl (by omega)
        · rw [hmap] at h
          exact absurd h (by simp)
      simp only [hcond, if_true]

/-- Witness of C7: GEN1 table, threshold set 2, stage 4 (invalid, sentinel) and the entry of
stage 2. -/
theorem lookup_sentinel_witness :
    (qpnp_tm_decode_temp (chip_gen1 2 0 37000) 4 = some 0 ↔
      (4 = 0 ∨ 4 > 3 ∨ (chip_gen1 2 0 37000).thresh > 3 ∨
        (chip_gen1 2 0 37000).temp_map = none)) ∧
    (∃ row t, temp_map_gen1[(chip_gen1 2 0 37000).thresh]? = some row ∧
      row[2 - 1]? = some t ∧
      qpnp_tm_decode_temp (chip_gen1 2 0 37000) 2 = some t ∧ t ≠ 0) :=
  ⟨(lookup_sentinel (chip_gen1 2 0 37000) 4 (Or.inr (Or.inl rfl))).1,
   (lookup_sentinel (chip_gen1 2 0 37000) 2 (Or.inr (Or.inl rfl))).2 temp_map_gen1 rfl
     (by decide) (by decide) (by decide)⟩

/-- C9: the initial temperature.  After a `qpnp_tm_init` that returns no error, with one of
the two calibration tables selected: if the normalized stage decoded from the status
register is not 0 the stored temperature is exactly the table entry
`temp_map[hw_thresh][stage - 1]`, where `hw_thresh` is the low two bits of the byte read
from SHUTDOWN_CTRL1 (whatever the configured `init_thresh` and the state before the call);
if it is 0 the stored temperature is `DEFAULT_TEMP`, 37000 mC. -/
theorem init_temperature (chip c1 : qpnp_tm_chip) (hw hw1 : Platform) (ret : Int)
    (tm : List (List Int))
    (h : qpnp_tm_init chip hw = some (ret, c1, hw1)) (hret : 0 ≤ ret)
    (hmap : chip.temp_map = some tm) (htab : tm = temp_map_gen1 ∨ tm = temp_map_gen2_v1) :
    ∃ stage,
      normalized_stage chip.subtype
        (status_field chip.subtype (reg_byte chip.base hw QPNP_TM_REG_STATUS)) = some stage ∧
      (stage = 0 → c1.temp = 37000) ∧
      (stage ≠ 0 → ∃ row,
        tm[reg_byte chip.base hw QPNP_TM_REG_SHUTDOWN_CTRL1 % 4]? = some row ∧
        row[stage - 1]? = some c1.temp) := by
  obtain ⟨-, -, stage, t, hn, ht, -, -, hc, -⟩ := init_success chip c1 hw hw1 ret h hret
  subst hc
  refine ⟨stage, hn, ?_, ?_⟩
  · intro h0
    simp only [h0, ne_eq, not_true_eq_false, if_false, Option.some.injEq] at ht
    simp only [← ht, DEFAULT_TEMP]
  · intro h0
    simp only [ne_eq, h0, not_false_eq_true, if_true] at ht
    have hs3 : stage ≤ 3 := by
      apply normalized_stage_le _ _ _ hn
      intro hs
      rw [hs]
      have := status_field_gen1 (reg_byte chip.base hw QPNP_TM_REG_STATUS)
      omega
    have hth : reg_byte chip.base hw QPNP_TM_REG_SHUTDOWN_CTRL1 % 4 ≤ 3 := by omega
    obtain ⟨row, t1, hr, ht1, hd, -, -⟩ := decode_temp_entry
      { chip with
        thresh := reg_byte chip.base hw QPNP_TM_REG_SHUTDOWN_CTRL1 &&&
          SHUTDOWN_CTRL1_THRESHOLD_MASK,
        temp := DEFAULT_TEMP,
        stage := status_field chip.subtype (reg_byte chip.base hw QPNP_TM_REG_STATUS) }
      tm hmap htab (by simpa [and3] using hth) stage (by omega) hs3
    rw [hd] at ht
    have e : t1 = t := Option.some.inj ht
    subst e
    simp only [and3] at hr
    exact ⟨row, hr, ht1⟩

/-- Witness of C9: a GEN2 chip configured for threshold set 0, SHUTDOWN_CTRL1 reading 0xC2
(hardware threshold set 2) and status 0x30 (state 3, stage 2): the temperature becomes
120000, the entry of row 2, not the 110000 of row 0. -/
theorem init_temperature_witness :
    ∃ stage,
      normalized_stage (chip_gen2 0 0 0).subtype
        (status_field (chip_gen2 0 0 0).subtype
          (reg_byte (chip_gen2 0 0 0).base (hw_regs 0x30 0xC2) QPNP_TM_REG_STATUS))
        = some stage ∧
      (stage = 0 → (chip_gen2 0 3 120000).temp = 37000) ∧
      (stage ≠ 0 → ∃ row,
        temp_map_gen2_v1[reg_byte (chip_gen2 0 0 0).base (hw_regs 0x30 0xC2)
          QPNP_TM_REG_SHUTDOWN_CTRL1 % 4]? = some row ∧
        row[stage - 1]? = some (chip_gen2 0 3 120000).temp) :=
  init_temperature (chip_gen2 0 0 0) (chip_gen2 0 3 120000) (hw_regs 0x30 0xC2)
    (logged (hw_regs 0x30 0xC2) [bus_event.reg_read 0x40, bus_event.reg_read 0x08,
      bus_event.reg_write 0x40 0, bus_event.reg_write 0x46 0x80]) 0 temp_map_gen2_v1
    rfl (by decide) rfl (Or.inr rfl)

/-- C10: threshold commit and hardware enable.  After a `qpnp_tm_init` that returns no
error, with a configured threshold set `c = init_thresh` in 0..3: the operating threshold
set is `c`; the call has made exactly four bus accesses, in this order: the read of
SHUTDOWN_CTRL1, the read of the status register, a write to SHUTDOWN_CTRL1 and a write to
ALARM_CTRL.  The byte written to SHUTDOWN_CTRL1 has bits 1:0 equal to `c`, bits 5:2 equal
to those of the byte read and bits 7:6 clear; the byte written to ALARM_CTRL is 0x80. -/
theorem init_commit (chip c1 : qpnp_tm_chip) (hw hw1 : Platform) (ret : Int)
    (h : qpnp_tm_init chip hw = some (ret, c1, hw1)) (hret : 0 ≤ ret)
    (hc : chip.init_thresh ≤ 3) :
    c1.thresh = chip.init_thresh ∧
    ∃ v, hw1.trace = hw.trace ++
        [bus_event.reg_read (bus_addr chip.base QPNP_TM_REG_SHUTDOWN_CTRL1),
         bus_event.reg_read (bus_addr chip.base QPNP_TM_REG_STATUS),
         bus_event.reg_write (bus_addr chip.base QPNP_TM_REG_SHUTDOWN_CTRL1) v,
         bus_event.reg_write (bus_addr chip.base QPNP_TM_REG_ALARM_CTRL) 0x80] ∧
      v % 4 = chip.init_thresh ∧
      v / 4 % 16 = reg_byte chip.base hw QPNP_TM_REG_SHUTDOWN_CTRL1 / 4 % 16 ∧
      v / 64 = 0 := by
  obtain ⟨-, -, stage, t, -, -, -, -, hc1, hh⟩ := init_success chip c1 hw hw1 ret h hret
  subst hc1 hh
  refine ⟨rfl, ctrl1_byte (reg_byte chip.base hw QPNP_TM_REG_SHUTDOWN_CTRL1)
    chip.init_thresh, ?_, ?_⟩
  · have e : ALARM_CTRL_FORCE_ENABLE % 2 ^ 8 = 0x80 := by decide
    rw [e]
    rfl
  · have hb : reg_byte chip.base hw QPNP_TM_REG_SHUTDOWN_CTRL1 < 256 := by
      unfold reg_byte
      omega
    exact ctrl1_byte_fin ⟨_, hb⟩ ⟨chip.init_thresh, by omega⟩

/-- Witness of C10: a GEN1 chip configured for threshold set 2, SHUTDOWN_CTRL1 reading
0xD7: the byte written is 0x16. -/
theorem init_commit_witness :
    ({ (chip_gen1 2 0 37000) with init_thresh := 2 } : qpnp_tm_chip).thresh = 2 ∧
    ∃ v, (logged (hw_regs 0 0xD7) [bus_event.reg_read 0x40, bus_event.reg_read 0x08,
        bus_event.reg_write 0x40 0x16, bus_event.reg_write 0x46 0x80]).trace =
      (hw_regs 0 0xD7).trace ++
        [bus_event.reg_read (bus_addr (chip_gen1 0 0 0).base QPNP_TM_REG_SHUTDOWN_CTRL1),
         bus_event.reg_read (bus_addr (chip_gen1 0 0 0).base QPNP_TM_REG_STATUS),
         bus_event.reg_write (bus_addr (chip_gen1 0 0 0).base QPNP_TM_REG_SHUTDOWN_CTRL1) v,
         bus_event.reg_write (bus_addr (chip_gen1 0 0 0).base QPNP_TM_REG_ALARM_CTRL) 0x80] ∧
      v % 4 = 2 ∧
      v / 4 % 16 = reg_byte (chip_gen1 0 0 0).base (hw_regs 0 0xD7)
        QPNP_TM_REG_SHUTDOWN_CTRL1 / 4 % 16 ∧
      v / 64 = 0 :=
  init_commit { (chip_gen1 0 0 0) with init_thresh := 2 }
    { (chip_gen1 2 0 37000) with init_thresh := 2 } (hw_regs 0 0xD7)
    (logged (hw_regs 0 0xD7) [bus_event.reg_read 0x40, bus_event.reg_read 0x08,
      bus_event.reg_write 0x40 0x16, bus_event.reg_write 0x46 0x80]) 0
    rfl (by decide) (by decide)

/-- Whatever `qpnp_tm_init` returns, it has changed at most `thresh`, `temp` and `stage`. -/
theorem init_frame (chip c1 : qpnp_tm_chip) (hw hw1 : Platform) (ret : Int)
    (h : qpnp_tm_init chip hw = some (ret, c1, hw1)) :
    c1 = { chip with thresh := c1.thresh, temp := c1.temp, stage := c1.stage } := by
  by_cases h1 : 0 ≤ hw.read_ret (bus_addr chip.base QPNP_TM_REG_SHUTDOWN_CTRL1)
  swap
  · rw [init_fail_first chip hw (not_le.mp h1)] at h
    simp only [Option.some.injEq, Prod.mk.injEq] at h
    obtain ⟨-, rfl, -⟩ := h
    rfl
  by_cases h2 : 0 ≤ hw.read_ret (bus_addr chip.base QPNP_TM_REG_STATUS)
  swap
  · rw [init_fail_second chip hw h1 (not_le.mp h2)] at h
    simp only [Option.some.injEq, Prod.mk.injEq] at h
    obtain ⟨-, rfl, -⟩ := h
    rfl
  rw [init_ok chip hw h1 h2] at h
  cases hn : normalized_stage chip.subtype
      (status_field chip.subtype (reg_byte chip.base hw QPNP_TM_REG_STATUS)) with
  | none => simp [hn] at h
  | some stage =>
    rw [hn, Option.some_bind] at h
    cases ht : (if stage ≠ 0 then
        qpnp_tm_decode_temp
          { chip with
            thresh := reg_byte chip.base hw QPNP_TM_REG_SHUTDOWN_CTRL1 &&&
              SHUTDOWN_CTRL1_THRESHOLD_MASK,
            temp := DEFAULT_TEMP,
            stage := status_field chip.subtype (reg_byte chip.base hw QPNP_TM_REG_STATUS) }
          stage
       else some DEFAULT_TEMP) with
    | none =>
      rw [ht] at h
      simp at h
    | some t =>
      rw [ht, Option.some_bind] at h
      split at h
      · simp only [Option.some.injEq, Prod.mk.injEq] at h
        obtain ⟨-, rfl, -⟩ := h
        rfl
      · simp only [Option.some.injEq, Prod.mk.injEq] at h
        obtain ⟨-, rfl, -⟩ := h
        rfl

/-- Whatever `qpnp_tm_get_temp` returns, it has changed at most `temp` and `stage`. -/
theorem get_temp_frame (chip c1 : qpnp_tm_chip) (hw hw1 : Platform) (ret : Int)
    (temp out : Option Int)
    (h : qpnp_tm_get_temp chip temp hw = some (ret, out, c1, hw1)) :
    c1 = { chip with temp := c1.temp, stage := c1.stage } := by
  unfold qpnp_tm_get_temp at h
  cases temp with
  | none =>
    simp only [Option.some.injEq, Prod.mk.injEq] at h
    obtain ⟨-, -, rfl, -⟩ := h
    rfl
  | some o =>
    simp only [] at h
    split at h
    · cases hu : qpnp_tm_update_temp_no_adc chip hw with
      | none => simp [hu] at h
      | some r =>
        obtain ⟨r1, r2, r3⟩ := r
        have hf := (update_result chip r2 hw r3 r1 hu).1
        rw [hu, Option.some_bind] at h
        split at h
        · simp only [Option.some.injEq, Prod.mk.injEq] at h
          obtain ⟨-, -, rfl, -⟩ := h
          exact hf
        · simp only [Option.some.injEq, Prod.mk.injEq] at h
          obtain ⟨-, -, rfl, -⟩ := h
          exact hf
    · split at h
      · simp only [Option.some.injEq, Prod.mk.injEq] at h
        obtain ⟨-, -, rfl, -⟩ := h
        rfl
      · simp only [Option.some.injEq, Prod.mk.injEq] at h
        obtain ⟨-, -, rfl, -⟩ := h
        rfl

theorem probe_fail_ret (ret : Int) (chip c : qpnp_tm_chip) (hw hw1 : Platform)
    (h : some (qpnp_tm_probe_fail ret chip hw) = some (0, some c, hw1)) :
    ret = 0 ∧ c = chip := by
  unfold qpnp_tm_probe_fail at h
  split at h <;>
    · simp only [Option.some.injEq, Prod.mk.injEq] at h
      exact ⟨h.1, h.2.1.symm⟩

/-- A probe that returns 0 has identified the module and selected the table. -/
theorem probe_hw_selected (pdev : platform_device) (chip c : qpnp_tm_chip)
    (hw hw1 : Platform)
    (h : qpnp_tm_probe_hw pdev chip hw = some (0, some c, hw1)) :
    c.base = chip.base ∧
    c.subtype = reg_byte chip.base hw QPNP_TM_REG_SUBTYPE ∧
    c.temp_map =
      (if reg_byte chip.base hw QPNP_TM_REG_SUBTYPE = QPNP_TM_SUBTYPE_GEN2 ∧
          reg_byte chip.base hw QPNP_TM_REG_DIG_MAJOR ≥ 1 then some temp_map_gen2_v1
        else some temp_map_gen1) := by
  unfold qpnp_tm_probe_hw at h
  by_cases k1 : 0 ≤ hw.read_ret (bus_addr chip.base QPNP_TM_REG_TYPE)
  swap
  · rw [qpnp_tm_read_fail chip hw _ _ (not_le.mp k1)] at h
    dsimp only at h
    rw [if_pos (not_le.mp k1)] at h
    have := (probe_fail_ret _ _ _ _ _ h).1
    omega
  rw [qpnp_tm_read_ok chip hw _ _ k1] at h
  dsimp only at h
  rw [if_neg (lt_irrefl 0)] at h
  by_cases k2 : 0 ≤ hw.read_ret (bus_addr chip.base QPNP_TM_REG_SUBTYPE)
  swap
  · rw [qpnp_tm_read_fail chip _ _ _ (by simpa using not_le.mp k2)] at h
    dsimp only at h
    rw [if_pos (by simpa using not_le.mp k2)] at h
    have := (probe_fail_ret _ _ _ _ _ h).1
    simp only [logged_read_ret] at this
    omega
  rw [qpnp_tm_read_ok chip _ _ _ (by simpa using k2)] at h
  dsimp only at h
  rw [if_neg (lt_irrefl 0)] at h
  by_cases k3 : 0 ≤ hw.read_ret (bus_addr chip.base QPNP_TM_REG_DIG_MAJOR)
  swap
  · rw [qpnp_tm_read_fail chip _ _ _ (by simpa using not_le.mp k3)] at h
    dsimp only at h
    rw [if_pos (by simpa using not_le.mp k3)] at h
    have := (probe_fail_ret _ _ _ _ _ h).1
    simp only [logged_read_ret] at this
    omega
  rw [qpnp_tm_read_ok chip _ _ _ (by simpa using k3)] at h
  dsimp only at h
  rw [if_neg (lt_irrefl 0)] at h
  simp only [reg_byte_logged, logged_logged] at h
  split at h
  · have := (probe_fail_ret _ _ _ _ _ h).1
    simp only [ENODEV] at this
    omega
  cases hi : qpnp_tm_init
      { chip with
        subtype := reg_byte chip.base hw QPNP_TM_REG_SUBTYPE,
        temp_map :=
          if reg_byte chip.base hw QPNP_TM_REG_SUBTYPE = QPNP_TM_SUBTYPE_GEN2 ∧
              reg_byte chip.base hw QPNP_TM_REG_DIG_MAJOR ≥ 1 then some temp_map_gen2_v1
          else some temp_map_gen1 }
      (logged hw ([bus_event.reg_read (bus_addr chip.base QPNP_TM_REG_TYPE)] ++
        [bus_event.reg_read (bus_addr chip.base QPNP_TM_REG_SUBTYPE)] ++
        [bus_event.reg_read (bus_addr chip.base QPNP_TM_REG_DIG_MAJOR)])) with
  | none =>
    rw [hi] at h
    simp at h
  | some i =>
    obtain ⟨iret, ic, ihw⟩ := i
    have hf := init_frame _ _ _ _ _ hi
    rw [hi, Option.some_bind] at h
    dsimp only at h
    split at h
    · rename_i k
      have := (probe_fail_ret _ _ _ _ _ h).1
      omega
    simp only [devm_request_threaded_irq, logged_request_irq_ret, logged_logged] at h
    split at h
    · rename_i k
      have := (probe_fail_ret _ _ _ _ _ h).1
      omega
    split at h
    · have hc := (probe_fail_ret _ _ _ _ _ h).2
      rw [hc]
      dsimp only
      rw [hf]
      exact ⟨rfl, rfl, rfl⟩
    · simp only [Option.some.injEq, Prod.mk.injEq, true_and] at h
      rw [← h.1]
      dsimp only
      rw [hf]
      exact ⟨rfl, rfl, rfl⟩

/-- C8: table selection by hardware revision.  When `qpnp_tm_probe` returns 0, the chip it
leaves has the subtype read from the SUBTYPE register, and its calibration table is
`temp_map_gen2_v1` if and only if that subtype is GEN2 and the digital revision read from
DIG_MAJOR is at least 1; otherwise (GEN1 with any revision, GEN2 with revision 0) it is
`temp_map_gen1`.  `qpnp_tm_init`, `qpnp_tm_update_temp_no_adc` and `qpnp_tm_get_temp` leave
the table as it is, whatever they return. -/
theorem table_selection (pdev : platform_device) (hw hw1 : Platform) (c : qpnp_tm_chip)
    (h : qpnp_tm_probe pdev hw = some (0, some c, hw1)) :
    c.subtype = reg_byte (pdev.of_reg.2 % 2 ^ 32) hw QPNP_TM_REG_SUBTYPE ∧
    (c.temp_map = some temp_map_gen2_v1 ↔
      (c.subtype = QPNP_TM_SUBTYPE_GEN2 ∧
        reg_byte (pdev.of_reg.2 % 2 ^ 32) hw QPNP_TM_REG_DIG_MAJOR ≥ 1)) ∧
    (¬ (c.subtype = QPNP_TM_SUBTYPE_GEN2 ∧
        reg_byte (pdev.of_reg.2 % 2 ^ 32) hw QPNP_TM_REG_DIG_MAJOR ≥ 1) →
      c.temp_map = some temp_map_gen1) ∧
    (∀ (chip c1 : qpnp_tm_chip) (hwa hwb : Platform) (ret : Int),
      qpnp_tm_init chip hwa = some (ret, c1, hwb) → c1.temp_map = chip.temp_map) ∧
    (∀ (chip c1 : qpnp_tm_chip) (hwa hwb : Platform) (ret : Int),
      qpnp_tm_update_temp_no_adc chip hwa = some (ret, c1, hwb) →
      c1.temp_map = chip.temp_map) ∧
    (∀ (chip c1 : qpnp_tm_chip) (hwa hwb : Platform) (ret : Int) (temp out : Option Int),
      qpnp_tm_get_temp chip temp hwa = some (ret, out, c1, hwb) →
      c1.temp_map = chip.temp_map) := by
  have sel : c.subtype = reg_byte (pdev.of_reg.2 % 2 ^ 32) hw QPNP_TM_REG_SUBTYPE ∧
      c.temp_map =
        (if reg_byte (pdev.of_reg.2 % 2 ^ 32) hw QPNP_TM_REG_SUBTYPE = QPNP_TM_SUBTYPE_GEN2 ∧
            reg_byte (pdev.of_reg.2 % 2 ^ 32) hw QPNP_TM_REG_DIG_MAJOR ≥ 1 then
          some temp_map_gen2_v1
        else some temp_map_gen1) := by
    unfold qpnp_tm_probe at h
    by_cases k1 : (!pdev.kzalloc_ok) = true
    · rw [if_pos k1] at h
      simp only [Option.some.injEq, Prod.mk.injEq, reduceCtorEq, and_false, false_and] at h
    rw [if_neg k1] at h
    dsimp only at h
    by_cases k2 : pdev.parent_regmap = kptr.null
    · rw [if_pos k2] at h
      simp only [Option.some.injEq, Prod.mk.injEq, ENXIO] at h
      omega
    rw [if_neg k2] at h
    by_cases k3 : pdev.of_reg.1 < 0
    · rw [if_pos k3] at h
      simp only [Option.some.injEq, Prod.mk.injEq] at h
      omega
    rw [if_neg k3] at h
    by_cases k4 : pdev.of_threshold_set.1 = 0 ∧
        (if pdev.of_threshold_set.1 = 0 then pdev.of_threshold_set.2 % 2 ^ 32
          else THRESH_MIN) > THRESH_MAX
    · rw [if_pos k4] at h
      simp only [Option.some.injEq, Prod.mk.injEq, EINVAL] at h
      omega
    rw [if_neg k4] at h
    by_cases k5 : wrap_int pdev.irq < 0
    · rw [if_pos k5] at h
      simp only [Option.some.injEq, Prod.mk.injEq] at h
      omega
    rw [if_neg k5] at h
    by_cases k6 : pdev.iio_channel = kptr.err (-EPROBE_DEFER)
    · rw [if_pos k6] at h
      simp only [Option.some.injEq, Prod.mk.injEq, EPROBE_DEFER] at h
      omega
    rw [if_neg k6] at h
    obtain ⟨-, s1, s2⟩ := probe_hw_selected _ _ _ _ _ h
    exact ⟨s1, s2⟩
  obtain ⟨hsub, hmap⟩ := sel
  have hne : (some temp_map_gen1 : Option (List (List Int))) ≠ some temp_map_gen2_v1 := by
    decide
  refine ⟨hsub, ?_, ?_, ?_, ?_, ?_⟩
  · rw [hmap, hsub]
    split
    · rename_i k
      exact ⟨fun _ => k, fun _ => rfl⟩
    · rename_i k
      exact ⟨fun e => absurd e hne, fun e => absurd e k⟩
  · intro k
    rw [hmap, ← hsub, if_neg k]
  · intro chip c1 hwa hwb ret hi
    have e := congrArg qpnp_tm_chip.temp_map (init_frame chip c1 hwa hwb ret hi)
    exact e
  · intro chip c1 hwa hwb ret hu
    have e := congrArg qpnp_tm_chip.temp_map (update_result chip c1 hwa hwb ret hu).1
    exact e
  · intro chip c1 hwa hwb ret temp out hg
    have e := congrArg qpnp_tm_chip.temp_map
      (get_temp_frame chip c1 hwa hwb ret temp out hg)
    exact e

/-- Witness of C8: the probe of a GEN2 module of digital revision 1 returns 0 and selects
`temp_map_gen2_v1`. -/
theorem table_selection_witness :
    (9 : Nat) = reg_byte (pdev_example.of_reg.2 % 2 ^ 32) (hw_module 9 1 0x30 0xC1)
      QPNP_TM_REG_SUBTYPE ∧
    (some temp_map_gen2_v1 = some temp_map_gen2_v1 ↔
      ((9 : Nat) = QPNP_TM_SUBTYPE_GEN2 ∧
        reg_byte (pdev_example.of_reg.2 % 2 ^ 32) (hw_module 9 1 0x30 0xC1)
          QPNP_TM_REG_DIG_MAJOR ≥ 1)) :=
  ⟨(table_selection pdev_example (hw_module 9 1 0x30 0xC1)
      (logged (hw_module 9 1 0x30 0xC1)
        [bus_event.reg_read 0x2404, bus_event.reg_read 0x2405, bus_event.reg_read 0x2401,
         bus_event.reg_read 0x2440, bus_event.reg_read 0x2408,
         bus_event.reg_write 0x2440 2, bus_event.reg_write 0x2446 0x80,
         bus_event.irq_request 5 0x2003, bus_event.sensor_register])
      { map := kptr.valid 1, tz_dev := kptr.valid 3, subtype := 9, temp := 115000,
        thresh := 2, stage := 3, prev_stage := 0, base := 0x2400, irq := 5,
        init_thresh := 2, adc := kptr.err (-19), temp_map := some temp_map_gen2_v1 }
      rfl).1,
   (table_selection pdev_example (hw_module 9 1 0x30 0xC1)
      (logged (hw_module 9 1 0x30 0xC1)
        [bus_event.reg_read 0x2404, bus_event.reg_read 0x2405, bus_event.reg_read 0x2401,
         bus_event.reg_read 0x2440, bus_event.reg_read 0x2408,
         bus_event.reg_write 0x2440 2, bus_event.reg_write 0x2446 0x80,
         bus_event.irq_request 5 0x2003, bus_event.sensor_register])
      { map := kptr.valid 1, tz_dev := kptr.valid 3, subtype := 9, temp := 115000,
        thresh := 2, stage := 3, prev_stage := 0, base := 0x2400, irq := 5,
        init_thresh := 2, adc := kptr.err (-19), temp_map := some temp_map_gen2_v1 }
      rfl).2.1⟩

theorem wrap_int_idem (x : Int) : wrap_int (wrap_int x) = wrap_int x := by
  unfold wrap_int
  omega

/-- C11: an out-of-range threshold set is rejected before the hardware is touched.  When the
device tree gives a threshold set greater than 3, `qpnp_tm_probe` returns a negative error
and the platform is exactly as before (no register read, no register write, no other call);
once the allocation, the regmap lookup and the `reg` property have succeeded, that error is
`-EINVAL`.  When the property is absent (`init_thresh` stays `THRESH_MIN` = 0) or gives a
value in 0..3, the probe passes the validation: with an interrupt and without a deferred ADC
channel it goes on to the identification of the module with that `init_thresh`. -/
theorem threshold_set_validation (pdev : platform_device) (hw : Platform) :
    (pdev.of_threshold_set.1 = 0 → pdev.of_threshold_set.2 % 2 ^ 32 > 3 →
      ∃ ret c, qpnp_tm_probe pdev hw = some (ret, c, hw) ∧ ret < 0 ∧
        (pdev.kzalloc_ok = true → pdev.parent_regmap ≠ kptr.null → 0 ≤ pdev.of_reg.1 →
          ret = -22 ∧ ret = -EINVAL)) ∧
    (pdev.of_threshold_set.1 ≠ 0 ∨ pdev.of_threshold_set.2 % 2 ^ 32 ≤ 3 →
      pdev.kzalloc_ok = true → pdev.parent_regmap ≠ kptr.null → 0 ≤ pdev.of_reg.1 →
      0 ≤ wrap_int pdev.irq → pdev.iio_channel ≠ kptr.err (-EPROBE_DEFER) →
      qpnp_tm_probe pdev hw =
        qpnp_tm_probe_hw pdev
          { chip_zero with
            map := pdev.parent_regmap,
            init_thresh :=
              if pdev.of_threshold_set.1 = 0 then pdev.of_threshold_set.2 % 2 ^ 32 else 0,
            irq := wrap_int pdev.irq,
            adc := pdev.iio_channel,
            base := pdev.of_reg.2 % 2 ^ 32 }
          hw) := by
  constructor
  · intro hp hv
    unfold qpnp_tm_probe
    by_cases k1 : (!pdev.kzalloc_ok) = true
    · rw [if_pos k1]
      refine ⟨_, _, rfl, by decide, fun hk => ?_⟩
      rw [hk] at k1
      exact absurd k1 (by decide)
    rw [if_neg k1]
    dsimp only
    by_cases k2 : pdev.parent_regmap = kptr.null
    · rw [if_pos k2]
      exact ⟨_, _, rfl, by decide, fun _ hk => absurd k2 hk⟩
    rw [if_neg k2]
    by_cases k3 : pdev.of_reg.1 < 0
    · rw [if_pos k3]
      exact ⟨_, _, rfl, k3, fun _ _ hk => absurd k3 (not_lt.mpr hk)⟩
    rw [if_neg k3]
    have k4 : pdev.of_threshold_set.1 = 0 ∧
        (if pdev.of_threshold_set.1 = 0 then pdev.of_threshold_set.2 % 2 ^ 32
          else THRESH_MIN) > THRESH_MAX := by
      refine ⟨hp, ?_⟩
      rw [if_pos hp]
      exact hv
    rw [if_pos k4]
    exact ⟨_, _, rfl, by decide, fun _ _ _ => ⟨by decide, rfl⟩⟩
  · intro hv hk hm hr hirq hadc
    unfold qpnp_tm_probe
    have k1 : ¬ (!pdev.kzalloc_ok) = true := by
      rw [hk]
      decide
    rw [if_neg k1]
    dsimp only
    rw [if_neg hm, if_neg (not_lt.mpr hr)]
    have k4 : ¬ (pdev.of_threshold_set.1 = 0 ∧
        (if pdev.of_threshold_set.1 = 0 then pdev.of_threshold_set.2 % 2 ^ 32
          else THRESH_MIN) > THRESH_MAX) := by
      rintro ⟨hp, hgt⟩
      rw [if_pos hp] at hgt
      rcases hv with h | h
      · exact h hp
      · simp only [THRESH_MAX] at hgt
        omega
    rw [if_neg k4, if_neg (not_lt.mpr hirq), if_neg hadc]
    rfl

/-- Witness of C11: threshold set 5 is rejected with -22 on an untouched platform, and
threshold set 2 passes the validation. -/
theorem threshold_set_validation_witness :
    (∃ ret c, qpnp_tm_probe pdev_bad_thresh (hw_module 9 1 0x30 0xC1) =
        some (ret, c, hw_module 9 1 0x30 0xC1) ∧ ret < 0 ∧
        (pdev_bad_thresh.kzalloc_ok = true → pdev_bad_thresh.parent_regmap ≠ kptr.null →
          0 ≤ pdev_bad_thresh.of_reg.1 → ret = -22 ∧ ret = -EINVAL)) ∧
    qpnp_tm_probe pdev_example (hw_module 9 1 0x30 0xC1) =
      qpnp_tm_probe_hw pdev_example
        { chip_zero with
          map := pdev_example.parent_regmap,
          init_thresh :=
            if pdev_example.of_threshold_set.1 = 0 then
              pdev_example.of_threshold_set.2 % 2 ^ 32
            else 0,
          irq := wrap_int pdev_example.irq,
          adc := pdev_example.iio_channel,
          base := pdev_example.of_reg.2 % 2 ^ 32 }
        (hw_module 9 1 0x30 0xC1) ∧
    (qpnp_tm_probe pdev_bad_thresh (hw_module 9 1 0x30 0xC1)).map
      (fun r => (r.1, r.2.2.trace)) = some (-22, []) :=
  ⟨(threshold_set_validation pdev_bad_thresh (hw_module 9 1 0x30 0xC1)).1
      (by decide) (by decide),
   (threshold_set_validation pdev_example (hw_module 9 1 0x30 0xC1)).2
      (by decide) (by decide) (by decide) (by decide) (by decide) (by decide),
   by decide⟩

/-- C12: the analog path overrides the stage estimation.  With an ADC channel (the pointer
is no error pointer) and a reading `v` delivered without error, `qpnp_tm_get_temp` with a
non-null output returns 0 with output `v`, stores `v` as the temperature, makes the ADC read
its only call (no status register read) and leaves every other field, the stage and the
threshold set among them, as it was; the outcome is the same for any stored stage and any
register contents. -/
theorem analog_path (chip : qpnp_tm_chip) (hw : Platform) (out : Int)
    (hadc : IS_ERR chip.adc = false) (hret : 0 ≤ hw.iio_ret) :
    qpnp_tm_get_temp chip (some out) hw =
      some (0, some (wrap_int hw.iio_val), { chip with temp := wrap_int hw.iio_val },
        logged hw [bus_event.adc_read]) ∧
    (∀ (s : Nat) (regs : Nat → Nat),
      qpnp_tm_get_temp { chip with stage := s } (some out) { hw with reg_val := regs } =
        some (0, some (wrap_int hw.iio_val),
          { chip with stage := s, temp := wrap_int hw.iio_val },
          logged { hw with reg_val := regs } [bus_event.adc_read])) := by
  have hn : ¬ hw.iio_ret < 0 := not_lt.mpr hret
  constructor
  · simp [qpnp_tm_get_temp, hadc, iio_read_channel_processed, hn, wrap_int_idem]
  · intro s regs
    simp [qpnp_tm_get_temp, hadc, iio_read_channel_processed, hn, wrap_int_idem]

/-- Witness of C12: a chip with ADC channel at stage 2 and 127000 mC, the ADC reads 41500
while the status register reports stage 3: the result is 41500 and the stage stays 2. -/
theorem analog_path_witness :
    qpnp_tm_get_temp (chip_adc 0 2 127000) (some 0) (hw_adc 3 0 41500) =
      some (0, some (wrap_int (hw_adc 3 0 41500).iio_val),
        { (chip_adc 0 2 127000) with temp := wrap_int (hw_adc 3 0 41500).iio_val },
        logged (hw_adc 3 0 41500) [bus_event.adc_read]) ∧
    (qpnp_tm_get_temp (chip_adc 0 2 127000) (some 0) (hw_adc 3 0 41500)).map
      (fun r => (r.1, r.2.1, r.2.2.1.temp, r.2.2.1.stage, r.2.2.1.thresh, r.2.2.2.trace)) =
      some (0, some 41500, 41500, 2, 0, [bus_event.adc_read]) :=
  ⟨(analog_path (chip_adc 0 2 127000) (hw_adc 3 0 41500) 0 (by decide) (by decide)).1,
   rfl⟩

/-- C13: `qpnp_tm_get_temp` fails atomically.  Without ADC channel and with a failing
status register read, or with an ADC channel and a failing ADC read, `qpnp_tm_get_temp`
returns exactly the error of that read, leaves the caller's output as it was and the chip
(temperature, stage, threshold set and all other fields) unchanged, and has made exactly
one call, that read: nothing is retried. -/
theorem get_temp_fails_atomically (chip : qpnp_tm_chip) (hw : Platform) (out : Int) :
    (IS_ERR chip.adc = true → hw.read_ret (bus_addr chip.base QPNP_TM_REG_STATUS) < 0 →
      qpnp_tm_get_temp chip (some out) hw =
        some (hw.read_ret (bus_addr chip.base QPNP_TM_REG_STATUS), some out, chip,
          logged hw [bus_event.reg_read (bus_addr chip.base QPNP_TM_REG_STATUS)]) ∧
      qpnp_tm_update_temp_no_adc chip hw =
        some (hw.read_ret (bus_addr chip.base QPNP_TM_REG_STATUS), chip,
          logged hw [bus_event.reg_read (bus_addr chip.base QPNP_TM_REG_STATUS)])) ∧
    (IS_ERR chip.adc = false → hw.iio_ret < 0 →
      qpnp_tm_get_temp chip (some out) hw =
        some (hw.iio_ret, some out, chip, logged hw [bus_event.adc_read])) := by
  constructor
  · intro hadc hfail
    refine ⟨?_, update_fail chip hw hfail⟩
    simp [qpnp_tm_get_temp, hadc, update_fail chip hw hfail, hfail]
  · intro hadc hfail
    simp [qpnp_tm_get_temp, hadc, iio_read_channel_processed, hfail]

/-- Witness of C13: the status read fails with -5 on the GEN1 chip without ADC channel, and
the ADC read fails with -110 on the chip with ADC channel. -/
theorem get_temp_fails_atomically_witness :
    (qpnp_tm_get_temp (chip_gen1 0 1 107000) (some 9) (hw_read_fails 2 0) =
        some ((hw_read_fails 2 0).read_ret
            (bus_addr (chip_gen1 0 1 107000).base QPNP_TM_REG_STATUS), some 9,
          chip_gen1 0 1 107000,
          logged (hw_read_fails 2 0)
            [bus_event.reg_read (bus_addr (chip_gen1 0 1 107000).base QPNP_TM_REG_STATUS)]) ∧
      qpnp_tm_update_temp_no_adc (chip_gen1 0 1 107000) (hw_read_fails 2 0) =
        some ((hw_read_fails 2 0).read_ret
            (bus_addr (chip_gen1 0 1 107000).base QPNP_TM_REG_STATUS),
          chip_gen1 0 1 107000,
          logged (hw_read_fails 2 0)
            [bus_event.reg_read
              (bus_addr (chip_gen1 0 1 107000).base QPNP_TM_REG_STATUS)])) ∧
    qpnp_tm_get_temp (chip_adc 0 1 107000) (some 9) (hw_adc 2 (-110) 41500) =
      some ((hw_adc 2 (-110) 41500).iio_ret, some 9, chip_adc 0 1 107000,
        logged (hw_adc 2 (-110) 41500) [bus_event.adc_read]) :=
  ⟨(get_temp_fails_atomically (chip_gen1 0 1 107000) (hw_read_fails 2 0) 9).1
      (by decide) (by decide),
   (get_temp_fails_atomically (chip_adc 0 1 107000) (hw_adc 2 (-110) 41500) 9).2
      (by decide) (by decide)⟩

/-- What `qpnp_tm_init` does once both reads have succeeded, for no table or one of the two
calibration tables: it leaves the chip initialized and returns the code of the write that
ends it. -/
theorem init_reads_ok (chip : qpnp_tm_chip) (hw : Platform)
    (htab : chip.temp_map = none ∨ chip.temp_map = some temp_map_gen1 ∨
      chip.temp_map = some temp_map_gen2_v1) :
    0 ≤ hw.read_ret (bus_addr chip.base QPNP_TM_REG_SHUTDOWN_CTRL1) →
      0 ≤ hw.read_ret (bus_addr chip.base QPNP_TM_REG_STATUS) →
      ∃ stage t,
        normalized_stage chip.subtype
          (status_field chip.subtype (reg_byte chip.base hw QPNP_TM_REG_STATUS))
            = some stage ∧
        (if stage ≠ 0 then
          qpnp_tm_decode_temp
            { chip with
              thresh := reg_byte chip.base hw QPNP_TM_REG_SHUTDOWN_CTRL1 &&&
                SHUTDOWN_CTRL1_THRESHOLD_MASK,
              temp := DEFAULT_TEMP,
              stage := status_field chip.subtype
                (reg_byte chip.base hw QPNP_TM_REG_STATUS) }
            stage
         else some DEFAULT_TEMP) = some t ∧
        (hw.write_ret (bus_addr chip.base QPNP_TM_REG_SHUTDOWN_CTRL1)
            (ctrl1_byte (reg_byte chip.base hw QPNP_TM_REG_SHUTDOWN_CTRL1)
              chip.init_thresh) < 0 →
          qpnp_tm_init chip hw =
            some (hw.write_ret (bus_addr chip.base QPNP_TM_REG_SHUTDOWN_CTRL1)
                (ctrl1_byte (reg_byte chip.base hw QPNP_TM_REG_SHUTDOWN_CTRL1)
                  chip.init_thresh),
              { chip with
                thresh := chip.init_thresh,
                temp := t,
                stage := status_field chip.subtype
                  (reg_byte chip.base hw QPNP_TM_REG_STATUS) },
              logged hw [bus_event.reg_read (bus_addr chip.base QPNP_TM_REG_SHUTDOWN_CTRL1),
                bus_event.reg_read (bus_addr chip.base QPNP_TM_REG_STATUS),
                bus_event.reg_write (bus_addr chip.base QPNP_TM_REG_SHUTDOWN_CTRL1)
                  (ctrl1_byte (reg_byte chip.base hw QPNP_TM_REG_SHUTDOWN_CTRL1)
                    chip.init_thresh)])) ∧
        (0 ≤ hw.write_ret (bus_addr chip.base QPNP_TM_REG_SHUTDOWN_CTRL1)
            (ctrl1_byte (reg_byte chip.base hw QPNP_TM_REG_SHUTDOWN_CTRL1)
              chip.init_thresh) →
          qpnp_tm_init chip hw =
            some (hw.write_ret (bus_addr chip.base QPNP_TM_REG_ALARM_CTRL)
                (ALARM_CTRL_FORCE_ENABLE % 2 ^ 8),
              { chip with
                thresh := chip.init_thresh,
                temp := t,
                stage := status_field chip.subtype
                  (reg_byte chip.base hw QPNP_TM_REG_STATUS) },
              logged hw [bus_event.reg_read (bus_addr chip.base QPNP_TM_REG_SHUTDOWN_CTRL1),
                bus_event.reg_read (bus_addr chip.base QPNP_TM_REG_STATUS),
                bus_event.reg_write (bus_addr chip.base QPNP_TM_REG_SHUTDOWN_CTRL1)
                  (ctrl1_byte (reg_byte chip.base hw QPNP_TM_REG_SHUTDOWN_CTRL1)
                    chip.init_thresh),
                bus_event.reg_write (bus_addr chip.base QPNP_TM_REG_ALARM_CTRL)
                  (ALARM_CTRL_FORCE_ENABLE % 2 ^ 8)])) := by
  intro h1 h2
  obtain ⟨stage, hn⟩ := normalized_stage_defined chip.subtype
    (status_field chip.subtype (reg_byte chip.base hw QPNP_TM_REG_STATUS))
    (status_field_le _ _)
  have ht : ∃ t, (if stage ≠ 0 then
      qpnp_tm_decode_temp
        { chip with
          thresh := reg_byte chip.base hw QPNP_TM_REG_SHUTDOWN_CTRL1 &&&
            SHUTDOWN_CTRL1_THRESHOLD_MASK,
          temp := DEFAULT_TEMP,
          stage := status_field chip.subtype (reg_byte chip.base hw QPNP_TM_REG_STATUS) }
        stage
     else some DEFAULT_TEMP) = some t := by
    split
    · exact decode_temp_defined _ stage htab
    · exact ⟨DEFAULT_TEMP, rfl⟩
  obtain ⟨t, ht⟩ := ht
  refine ⟨stage, t, hn, ht, fun hlt => ?_, fun hge => ?_⟩
  · rw [init_ok chip hw h1 h2, hn, Option.some_bind, ht, Option.some_bind, if_pos hlt]
  · rw [init_ok chip hw h1 h2, hn, Option.some_bind, ht, Option.some_bind,
      if_neg (not_lt.mpr hge)]

/-- Counterexample to C14 as stated: a GEN1 chip at threshold set 0, stage 1 and 107000 mC,
SHUTDOWN_CTRL1 reading 0x02.  When the status read fails with -5, `qpnp_tm_init` returns -5
and leaves threshold set 2 and 37000 mC; when the writes fail with -5 and the status
register reports stage 3, it returns -5 and leaves stage 3 and 155000 mC. -/
theorem init_atomic_counterexample :
    ((chip_gen1 0 1 107000).thresh, (chip_gen1 0 1 107000).stage,
      (chip_gen1 0 1 107000).temp) = (0, 1, 107000) ∧
    (qpnp_tm_init (chip_gen1 0 1 107000) (hw_status_fails 1 0x02)).map
      (fun r => (r.1, r.2.1.thresh, r.2.1.stage, r.2.1.temp)) = some (-5, 2, 1, 37000) ∧
    (qpnp_tm_init (chip_gen1 0 1 107000) (hw_write_fails 3 0x02)).map
      (fun r => (r.1, r.2.1.thresh, r.2.1.stage, r.2.1.temp)) = some (-5, 0, 3, 155000) := by
  decide

/-- C14, as the code has it: `qpnp_tm_init` returns the error of the first bus access that
fails, and the chip it leaves depends on how far it got.  (a) If the SHUTDOWN_CTRL1 read
fails the chip is unchanged.  (b) If the status read fails, `thresh` already holds the
threshold set read from hardware and `temp` holds `DEFAULT_TEMP`; the stage is unchanged.
(c) If both reads succeed, the chip is left initialized whatever the writes return:
`thresh` is `init_thresh`, `stage` the raw stage read, `temp` the initial temperature `t`;
a failing SHUTDOWN_CTRL1 write ends the call with its error after three accesses, otherwise
the call returns the code of the ALARM_CTRL write after four. -/
theorem init_failure (chip : qpnp_tm_chip) (hw : Platform)
    (htab : chip.temp_map = none ∨ chip.temp_map = some temp_map_gen1 ∨
      chip.temp_map = some temp_map_gen2_v1) :
    (hw.read_ret (bus_addr chip.base QPNP_TM_REG_SHUTDOWN_CTRL1) < 0 →
      qpnp_tm_init chip hw =
        some (hw.read_ret (bus_addr chip.base QPNP_TM_REG_SHUTDOWN_CTRL1), chip,
          logged hw [bus_event.reg_read (bus_addr chip.base QPNP_TM_REG_SHUTDOWN_CTRL1)])) ∧
    (0 ≤ hw.read_ret (bus_addr chip.base QPNP_TM_REG_SHUTDOWN_CTRL1) →
      hw.read_ret (bus_addr chip.base QPNP_TM_REG_STATUS) < 0 →
      qpnp_tm_init chip hw =
        some (hw.read_ret (bus_addr chip.base QPNP_TM_REG_STATUS),
          { chip with
            thresh := reg_byte chip.base hw QPNP_TM_REG_SHUTDOWN_CTRL1 &&&
              SHUTDOWN_CTRL1_THRESHOLD_MASK,
            temp := DEFAULT_TEMP },
          logged hw [bus_event.reg_read (bus_addr chip.base QPNP_TM_REG_SHUTDOWN_CTRL1),
            bus_event.reg_read (bus_addr chip.base QPNP_TM_REG_STATUS)])) ∧
    (0 ≤ hw.read_ret (bus_addr chip.base QPNP_TM_REG_SHUTDOWN_CTRL1) →
      0 ≤ hw.read_ret (bus_addr chip.base QPNP_TM_REG_STATUS) →
      ∃ stage t,
        normalized_stage chip.subtype
          (status_field chip.subtype (reg_byte chip.base hw QPNP_TM_REG_STATUS))
            = some stage ∧
        (if stage ≠ 0 then
          qpnp_tm_decode_temp
            { chip with
              thresh := reg_byte chip.base hw QPNP_TM_REG_SHUTDOWN_CTRL1 &&&
                SHUTDOWN_CTRL1_THRESHOLD_MASK,
              temp := DEFAULT_TEMP,
              stage := status_field chip.subtype
                (reg_byte chip.base hw QPNP_TM_REG_STATUS) }
            stage
         else some DEFAULT_TEMP) = some t ∧
        (hw.write_ret (bus_addr chip.base QPNP_TM_REG_SHUTDOWN_CTRL1)
            (ctrl1_byte (reg_byte chip.base hw QPNP_TM_REG_SHUTDOWN_CTRL1)
              chip.init_thresh) < 0 →
          qpnp_tm_init chip hw =
            some (hw.write_ret (bus_addr chip.base QPNP_TM_REG_SHUTDOWN_CTRL1)
                (ctrl1_byte (reg_byte chip.base hw QPNP_TM_REG_SHUTDOWN_CTRL1)
                  chip.init_thresh),
              { chip with
                thresh := chip.init_thresh,
                temp := t,
                stage := status_field chip.subtype
                  (reg_byte chip.base hw QPNP_TM_REG_STATUS) },
              logged hw [bus_event.reg_read (bus_addr chip.base QPNP_TM_REG_SHUTDOWN_CTRL1),
                bus_event.reg_read (bus_addr chip.base QPNP_TM_REG_STATUS),
                bus_event.reg_write (bus_addr chip.base QPNP_TM_REG_SHUTDOWN_CTRL1)
                  (ctrl1_byte (reg_byte chip.base hw QPNP_TM_REG_SHUTDOWN_CTRL1)
                    chip.init_thresh)])) ∧
        (0 ≤ hw.write_ret (bus_addr chip.base QPNP_TM_REG_SHUTDOWN_CTRL1)
            (ctrl1_byte (reg_byte chip.base hw QPNP_TM_REG_SHUTDOWN_CTRL1)
              chip.init_thresh) →
          qpnp_tm_init chip hw =
            some (hw.write_ret (bus_addr chip.base QPNP_TM_REG_ALARM_CTRL)
                (ALARM_CTRL_FORCE_ENABLE % 2 ^ 8),
              { chip with
                thresh := chip.init_thresh,
                temp := t,
                stage := status_field chip.subtype
                  (reg_byte chip.base hw QPNP_TM_REG_STATUS) },
              logged hw [bus_event.reg_read (bus_addr chip.base QPNP_TM_REG_SHUTDOWN_CTRL1),
                bus_event.reg_read (bus_addr chip.base QPNP_TM_REG_STATUS),
                bus_event.reg_write (bus_addr chip.base QPNP_TM_REG_SHUTDOWN_CTRL1)
                  (ctrl1_byte (reg_byte chip.base hw QPNP_TM_REG_SHUTDOWN_CTRL1)
                    chip.init_thresh),
                bus_event.reg_write (bus_addr chip.base QPNP_TM_REG_ALARM_CTRL)
                  (ALARM_CTRL_FORCE_ENABLE % 2 ^ 8)]))) := by
  exact ⟨init_fail_first chip hw, init_fail_second chip hw, init_reads_ok chip hw htab⟩

/-- Witness of C14 as amended: the failures of the counterexample, and a failing first
read. -/
theorem init_failure_witness :
    qpnp_tm_init (chip_gen1 0 1 107000) (hw_read_fails 1 0x02) =
      some ((hw_read_fails 1 0x02).read_ret
          (bus_addr (chip_gen1 0 1 107000).base QPNP_TM_REG_SHUTDOWN_CTRL1),
        chip_gen1 0 1 107000,
        logged (hw_read_fails 1 0x02)
          [bus_event.reg_read
            (bus_addr (chip_gen1 0 1 107000).base QPNP_TM_REG_SHUTDOWN_CTRL1)]) ∧
    qpnp_tm_init (chip_gen1 0 1 107000) (hw_status_fails 1 0x02) =
      some ((hw_status_fails 1 0x02).read_ret
          (bus_addr (chip_gen1 0 1 107000).base QPNP_TM_REG_STATUS),
        { (chip_gen1 0 1 107000) with
          thresh := reg_byte (chip_gen1 0 1 107000).base (hw_status_fails 1 0x02)
            QPNP_TM_REG_SHUTDOWN_CTRL1 &&& SHUTDOWN_CTRL1_THRESHOLD_MASK,
          temp := DEFAULT_TEMP },
        logged (hw_status_fails 1 0x02)
          [bus_event.reg_read
            (bus_addr (chip_gen1 0 1 107000).base QPNP_TM_REG_SHUTDOWN_CTRL1),
           bus_event.reg_read (bus_addr (chip_gen1 0 1 107000).base QPNP_TM_REG_STATUS)]) :=
  ⟨(init_failure (chip_gen1 0 1 107000) (hw_read_fails 1 0x02) (Or.inr (Or.inl rfl))).1
      (by decide),
   (init_failure (chip_gen1 0 1 107000) (hw_status_fails 1 0x02)
      (Or.inr (Or.inl rfl))).2.1 (by decide) (by decide)⟩

/-- Counterexample to C15 as stated: a GEN2 chip at state 0 reads the status byte 0x30,
raw state 3, whose normalized stage is 2: the update stores 3, not 2; with the status byte
0x70 it stores 7, which is above 3. -/
theorem stored_stage_counterexample :
    normalized_stage QPNP_TM_SUBTYPE_GEN2 3 = some 2 ∧
    (qpnp_tm_update_temp_no_adc (chip_gen2 0 0 37000) (hw_regs 0x30 0)).map
      (fun r => (r.1, r.2.1.stage)) = some (0, 3) ∧
    (qpnp_tm_update_temp_no_adc (chip_gen2 0 0 37000) (hw_regs 0x70 0)).map
      (fun r => (r.1, r.2.1.stage)) = some (0, 7) := by
  decide

/-- C15, as the code has it: after an update with a successful status read the stored
stage is the raw field of the status byte, the stage itself for GEN1 (at most 3) and the
3-bit state for GEN2 (at most 7); its normalization, which the next update computes as
`stage_old`, is the normalized new stage `stage_new` and lies in 0..3. -/
theorem stored_stage_raw (chip : qpnp_tm_chip) (hw : Platform)
    (htab : chip.temp_map = none ∨ chip.temp_map = some temp_map_gen1 ∨
      chip.temp_map = some temp_map_gen2_v1)
    (hst : chip.subtype = QPNP_TM_SUBTYPE_GEN1 ∨ chip.stage < 8)
    (hread : 0 ≤ hw.read_ret (bus_addr chip.base QPNP_TM_REG_STATUS)) :
    ∃ c1 sn,
      qpnp_tm_update_temp_no_adc chip hw =
        some (0, c1, logged hw [bus_event.reg_read (bus_addr chip.base QPNP_TM_REG_STATUS)]) ∧
      c1.stage = status_field chip.subtype (reg_byte chip.base hw QPNP_TM_REG_STATUS) ∧
      normalized_stage chip.subtype
        (status_field chip.subtype (reg_byte chip.base hw QPNP_TM_REG_STATUS)) = some sn ∧
      normalized_stage c1.subtype c1.stage = some sn ∧
      sn ≤ 3 ∧ c1.stage ≤ 7 ∧
      (chip.subtype = QPNP_TM_SUBTYPE_GEN1 → c1.stage = sn ∧ c1.stage ≤ 3) := by
  obtain ⟨t, ht⟩ := update_returns chip hw htab hst hread
  obtain ⟨sn, hn⟩ := normalized_stage_defined chip.subtype
    (status_field chip.subtype (reg_byte chip.base hw QPNP_TM_REG_STATUS))
    (status_field_le _ _)
  have h7 := status_field_le chip.subtype (reg_byte chip.base hw QPNP_TM_REG_STATUS)
  have hsn : sn ≤ 3 := by
    apply normalized_stage_le _ _ _ hn
    intro hs
    rw [hs]
    have := status_field_gen1 (reg_byte chip.base hw QPNP_TM_REG_STATUS)
    omega
  refine ⟨_, sn, ht, rfl, hn, hn, hsn, by dsimp only; omega, fun hs => ?_⟩
  dsimp only
  have hg := status_field_gen1 (reg_byte chip.base hw QPNP_TM_REG_STATUS)
  rw [hs] at hn ⊢
  simp only [normalized_stage, if_true, Option.some.injEq] at hn
  omega

/-- Witness of C15 as amended: the GEN2 update of the counterexample. -/
theorem stored_stage_raw_witness :
    ∃ c1 sn,
      qpnp_tm_update_temp_no_adc (chip_gen2 0 0 37000) (hw_regs 0x30 0) =
        some (0, c1, logged (hw_regs 0x30 0)
          [bus_event.reg_read (bus_addr (chip_gen2 0 0 37000).base QPNP_TM_REG_STATUS)]) ∧
      c1.stage = status_field (chip_gen2 0 0 37000).subtype
        (reg_byte (chip_gen2 0 0 37000).base (hw_regs 0x30 0) QPNP_TM_REG_STATUS) ∧
      normalized_stage (chip_gen2 0 0 37000).subtype
        (status_field (chip_gen2 0 0 37000).subtype
          (reg_byte (chip_gen2 0 0 37000).base (hw_regs 0x30 0) QPNP_TM_REG_STATUS))
        = some sn ∧
      normalized_stage c1.subtype c1.stage = some sn ∧
      sn ≤ 3 ∧ c1.stage ≤ 7 ∧
      ((chip_gen2 0 0 37000).subtype = QPNP_TM_SUBTYPE_GEN1 → c1.stage = sn ∧ c1.stage ≤ 3) :=
  stored_stage_raw (chip_gen2 0 0 37000) (hw_regs 0x30 0) (Or.inr (Or.inr rfl))
    (Or.inr (by decide)) (by decide)

/-- C16: raw status decoding and normalization.  For a successful status read delivering
the byte `b`, `qpnp_tm_get_temp_stage` returns `b AND 0x03` (a value in 0..3) for GEN1 and
`(b AND 0x70) >> 4` (a value in 0..7) otherwise; `alarm_state_map` sends 0..7 to exactly
0, 1, 1, 2, 2, 3, 3, 3, so every normalized stage is in 0..3, the map is non-decreasing and
it takes each of the values 0, 1, 2, 3. -/
theorem status_decoding (chip : qpnp_tm_chip) (hw : Platform)
    (hread : 0 ≤ hw.read_ret (bus_addr chip.base QPNP_TM_REG_STATUS)) :
    (qpnp_tm_get_temp_stage chip hw).1 =
      ((if chip.subtype = QPNP_TM_SUBTYPE_GEN1 then
          reg_byte chip.base hw QPNP_TM_REG_STATUS &&& 0x03
        else (reg_byte chip.base hw QPNP_TM_REG_STATUS &&& 0x70) >>> 4 : Nat) : Int) ∧
    reg_byte chip.base hw QPNP_TM_REG_STATUS &&& 0x03 ≤ 3 ∧
    (reg_byte chip.base hw QPNP_TM_REG_STATUS &&& 0x70) >>> 4 ≤ 7 ∧
    alarm_state_map = [0, 1, 1, 2, 2, 3, 3, 3] ∧
    (∀ raw : Nat, raw < 8 → ∃ s, alarm_state_map[raw]? = some s ∧ s ≤ 3) ∧
    (∀ r1 r2 s1 s2 : Nat, r1 ≤ r2 → alarm_state_map[r1]? = some s1 →
      alarm_state_map[r2]? = some s2 → s1 ≤ s2) ∧
    (∀ s : Nat, s ≤ 3 → ∃ raw : Nat, raw < 8 ∧ alarm_state_map[raw]? = some s) ∧
    (∀ sn, normalized_stage chip.subtype
        (status_field chip.subtype (reg_byte chip.base hw QPNP_TM_REG_STATUS)) = some sn →
      sn ≤ 3) := by
  have m1 : STATUS_GEN1_STAGE_MASK = 0x03 := by decide
  have m2 : STATUS_GEN2_STATE_MASK = 0x70 := by decide
  have m3 : STATUS_GEN2_STATE_SHIFT = 4 := rfl
  refine ⟨?_, ?_, ?_, rfl, ?_, ?_, ?_, ?_⟩
  · rw [get_temp_stage_ok chip hw hread]
    simp only [status_field, m1, m2, m3]
  · have := gen1_field_lt (reg_byte chip.base hw QPNP_TM_REG_STATUS)
    rw [m1] at this
    omega
  · have := gen2_field_lt (reg_byte chip.base hw QPNP_TM_REG_STATUS)
    rw [m2, m3] at this
    omega
  · intro raw hraw
    interval_cases raw <;> simp [alarm_state_map]
  · intro r1 r2 s1 s2 hle h1 h2
    have hr2 : r2 < 8 := by
      by_contra hc
      have : alarm_state_map[r2]? = none := by
        apply List.getElem?_eq_none
        simp [alarm_state_map]
        omega
      rw [this] at h2
      exact absurd h2 (by simp)
    interval_cases r2 <;> interval_cases r1 <;> simp [alarm_state_map] at h1 h2 <;> omega
  · intro s hs
    interval_cases s
    · exact ⟨0, by decide, by decide⟩
    · exact ⟨1, by decide, by decide⟩
    · exact ⟨3, by decide, by decide⟩
    · exact ⟨5, by decide, by decide⟩
  · intro sn hn
    apply normalized_stage_le _ _ _ hn
    intro hs
    rw [hs]
    have := status_field_gen1 (reg_byte chip.base hw QPNP_TM_REG_STATUS)
    omega

/-- Witness of C16: the status byte 0xB6 decodes to stage 2 on the GEN1 chip and to state 3
on the GEN2 chip. -/
theorem status_decoding_witness :
    (qpnp_tm_get_temp_stage (chip_gen1 0 0 37000) (hw_regs 0xB6 0)).1 = 2 ∧
    (qpnp_tm_get_temp_stage (chip_gen2 0 0 37000) (hw_regs 0xB6 0)).1 = 3 ∧
    (qpnp_tm_get_temp_stage (chip_gen2 0 0 37000) (hw_regs 0xB6 0)).1 =
      ((if (chip_gen2 0 0 37000).subtype = QPNP_TM_SUBTYPE_GEN1 then
          reg_byte (chip_gen2 0 0 37000).base (hw_regs 0xB6 0) QPNP_TM_REG_STATUS &&& 0x03
        else (reg_byte (chip_gen2 0 0 37000).base (hw_regs 0xB6 0) QPNP_TM_REG_STATUS
          &&& 0x70) >>> 4 : Nat) : Int) :=
  ⟨by decide, by decide,
   (status_decoding (chip_gen2 0 0 37000) (hw_regs 0xB6 0) (by decide)).1⟩

/-- Neighbouring trip points of a row are at least 20000 mC apart, in both tables. -/
theorem decode_temp_gap (chip : qpnp_tm_chip) (tm : List (List Int))
    (hmap : chip.temp_map = some tm) (htab : tm = temp_map_gen1 ∨ tm = temp_map_gen2_v1)
    (hth : chip.thresh ≤ 3) (s : Nat) (h1 : 1 ≤ s) (h2 : s ≤ 2) :
    ∃ a b, qpnp_tm_decode_temp chip s = some a ∧ qpnp_tm_decode_temp chip (s + 1) = some b ∧
      90000 ≤ a ∧ a + 20000 ≤ b ∧ b ≤ 160000 := by
  unfold qpnp_tm_decode_temp
  rw [hmap]
  generalize chip.thresh = th at hth
  rcases htab with rfl | rfl <;> interval_cases th <;> interval_cases s <;>
    simp [temp_map_gen1, temp_map_gen2_v1, THRESH_COUNT, STAGE_COUNT]

/-- C18: the estimate is consistent with the reported stage band.  For both tables, a
threshold set in 0..3, a stored stage of the hardware generation and a successful status
read: when the normalized stage changes to `sn`, the update returns 0 and the temperature
it stores is strictly above the trip point of stage `sn` if `sn ≥ 1`, and strictly below
the trip point of stage `sn + 1` if `sn ≤ 2`. -/
theorem estimate_within_band (chip : qpnp_tm_chip) (hw : Platform) (tm : List (List Int))
    (sn so : Nat)
    (hmap : chip.temp_map = some tm) (htab : tm = temp_map_gen1 ∨ tm = temp_map_gen2_v1)
    (hth : chip.thresh ≤ 3)
    (hstage : chip.subtype = QPNP_TM_SUBTYPE_GEN1 → chip.stage ≤ 3)
    (hread : 0 ≤ hw.read_ret (bus_addr chip.base QPNP_TM_REG_STATUS))
    (hnew : normalized_stage chip.subtype
      (status_field chip.subtype (reg_byte chip.base hw QPNP_TM_REG_STATUS)) = some sn)
    (hold : normalized_stage chip.subtype chip.stage = some so)
    (hne : sn ≠ so) :
    ∃ c1,
      qpnp_tm_update_temp_no_adc chip hw =
        some (0, c1, logged hw [bus_event.reg_read (bus_addr chip.base QPNP_TM_REG_STATUS)]) ∧
      (1 ≤ sn → ∃ trip, qpnp_tm_decode_temp chip sn = some trip ∧ trip < c1.temp) ∧
      (sn ≤ 2 → ∃ trip, qpnp_tm_decode_temp chip (sn + 1) = some trip ∧ c1.temp < trip) := by
  have hso : so ≤ 3 := normalized_stage_le _ _ _ hold hstage
  have hsn : sn ≤ 3 := by
    apply normalized_stage_le _ _ _ hnew
    intro hs
    rw [hs]
    have := status_field_gen1 (reg_byte chip.base hw QPNP_TM_REG_STATUS)
    omega
  rcases Nat.lt_or_gt_of_ne hne with hlt | hgt
  · -- cooling
    obtain ⟨row, t, -, -, hdec, hlo, hhi⟩ :=
      decode_temp_entry chip tm hmap htab hth (sn + 1) (by omega) (by omega)
    have hwr : wrap_long (t - TEMP_STAGE_HYSTERESIS) = t - 2000 := by
      unfold TEMP_STAGE_HYSTERESIS
      apply wrap_long_id <;> omega
    refine ⟨{ chip with
        temp := t - 2000,
        stage := status_field chip.subtype (reg_byte chip.base hw QPNP_TM_REG_STATUS) },
      ?_, ?_, ?_⟩
    · rw [update_ok chip hw hread sn so hnew hold, if_neg (by omega), if_pos hlt, hdec]
      simp [hwr]
    · intro h1
      obtain ⟨a, b, ha, hb, -, hgap, -⟩ :=
        decode_temp_gap chip tm hmap htab hth sn h1 (by omega)
      rw [hdec] at hb
      have e : t = b := Option.some.inj hb
      refine ⟨a, ha, ?_⟩
      dsimp only
      omega
    · intro _
      refine ⟨t, hdec, ?_⟩
      dsimp only
      omega
  · -- heating
    obtain ⟨row, t, -, -, hdec, hlo, hhi⟩ :=
      decode_temp_entry chip tm hmap htab hth sn (by omega) hsn
    have hwr : wrap_long (t + TEMP_STAGE_HYSTERESIS) = t + 2000 := by
      unfold TEMP_STAGE_HYSTERESIS
      apply wrap_long_id <;> omega
    refine ⟨{ chip with
        temp := t + 2000,
        stage := status_field chip.subtype (reg_byte chip.base hw QPNP_TM_REG_STATUS) },
      ?_, ?_, ?_⟩
    · rw [update_ok chip hw hread sn so hnew hold, if_pos hgt, hdec]
      simp [hwr]
    · intro _
      refine ⟨t, hdec, ?_⟩
      dsimp only
      omega
    · intro h2
      obtain ⟨a, b, ha, hb, -, hgap, -⟩ :=
        decode_temp_gap chip tm hmap htab hth sn (by omega) h2
      rw [hdec] at ha
      have e : t = a := Option.some.inj ha
      refine ⟨b, hb, ?_⟩
      dsimp only
      omega

/-- Witness of C18: GEN2 table, threshold set 1, cooling from state 5 (stage 3) to state 3
(stage 2): the stored 143000 lies between the trip points 115000 and 145000. -/
theorem estimate_within_band_witness :
    (∃ c1,
      qpnp_tm_update_temp_no_adc (chip_gen2 1 5 147000) (hw_regs 0x30 0) =
        some (0, c1, logged (hw_regs 0x30 0)
          [bus_event.reg_read (bus_addr (chip_gen2 1 5 147000).base QPNP_TM_REG_STATUS)]) ∧
      (1 ≤ 2 → ∃ trip, qpnp_tm_decode_temp (chip_gen2 1 5 147000) 2 = some trip ∧
        trip < c1.temp) ∧
      (2 ≤ 2 → ∃ trip, qpnp_tm_decode_temp (chip_gen2 1 5 147000) (2 + 1) = some trip ∧
        c1.temp < trip)) ∧
    (qpnp_tm_update_temp_no_adc (chip_gen2 1 5 147000) (hw_regs 0x30 0)).map
      (fun r => (r.1, r.2.1.temp)) = some (0, 143000) ∧
    qpnp_tm_decode_temp (chip_gen2 1 5 147000) 2 = some 115000 ∧
    qpnp_tm_decode_temp (chip_gen2 1 5 147000) 3 = some 145000 :=
  ⟨estimate_within_band (chip_gen2 1 5 147000) (hw_regs 0x30 0) temp_map_gen2_v1 2 3 rfl
      (Or.inr rfl) (by decide) (by decide) (by decide) (by decide) (by decide) (by decide),
   by decide, by decide, by decide⟩

/-- Once both reads have succeeded `qpnp_tm_init` returns, and leaves the chip
initialized with the temperature `t` of the first decode. -/
theorem init_after_reads (chip : qpnp_tm_chip) (hw : Platform)
    (htab : chip.temp_map = none ∨ chip.temp_map = some temp_map_gen1 ∨
      chip.temp_map = some temp_map_gen2_v1)
    (h1 : 0 ≤ hw.read_ret (bus_addr chip.base QPNP_TM_REG_SHUTDOWN_CTRL1))
    (h2 : 0 ≤ hw.read_ret (bus_addr chip.base QPNP_TM_REG_STATUS)) :
    ∃ stage t ret hw1,
      normalized_stage chip.subtype
        (status_field chip.subtype (reg_byte chip.base hw QPNP_TM_REG_STATUS)) = some stage ∧
      (if stage ≠ 0 then
        qpnp_tm_decode_temp
          { chip with
            thresh := reg_byte chip.base hw QPNP_TM_REG_SHUTDOWN_CTRL1 &&&
              SHUTDOWN_CTRL1_THRESHOLD_MASK,
            temp := DEFAULT_TEMP,
            stage := status_field chip.subtype (reg_byte chip.base hw QPNP_TM_REG_STATUS) }
          stage
       else some DEFAULT_TEMP) = some t ∧
      qpnp_tm_init chip hw =
        some (ret,
          { chip with
            thresh := chip.init_thresh,
            temp := t,
            stage := status_field chip.subtype (reg_byte chip.base hw QPNP_TM_REG_STATUS) },
          hw1) := by
  obtain ⟨stage, t, hn, ht, hneg, hok⟩ := init_reads_ok chip hw htab h1 h2
  by_cases hw1 : hw.write_ret (bus_addr chip.base QPNP_TM_REG_SHUTDOWN_CTRL1)
      (ctrl1_byte (reg_byte chip.base hw QPNP_TM_REG_SHUTDOWN_CTRL1) chip.init_thresh) < 0
  · exact ⟨stage, t, _, _, hn, ht, hneg hw1⟩
  · exact ⟨stage, t, _, _, hn, ht, hok (not_lt.mp hw1)⟩

/-- C19: the lookup never fails in normal operation.  With one of the two calibration
tables selected, a threshold set in 0..3 and a stored stage of the hardware generation:
(a) an update with a successful status read calls the lookup only with a stage in 1..3
(`stage_new` when the stage rose, `stage_new + 1` when it fell), returns 0, keeps the
temperature when the stage is unchanged and otherwise stores a value between 88000 and
162000 mC, so never 2000 or -2000; (b) in `qpnp_tm_init`, after both reads, the transient
threshold set is at most 3, the lookup is called only for a stage in 1..3, and the call
returns leaving 37000 mC for stage 0 and a table entry between 90000 and 160000 mC
otherwise. -/
theorem lookup_failure_unreachable (chip : qpnp_tm_chip) (tm : List (List Int))
    (hmap : chip.temp_map = some tm) (htab : tm = temp_map_gen1 ∨ tm = temp_map_gen2_v1)
    (hth : chip.thresh ≤ 3)
    (hstage : chip.subtype = QPNP_TM_SUBTYPE_GEN1 → chip.stage ≤ 3) :
    (∀ (hw : Platform) (sn so : Nat),
      0 ≤ hw.read_ret (bus_addr chip.base QPNP_TM_REG_STATUS) →
      normalized_stage chip.subtype
        (status_field chip.subtype (reg_byte chip.base hw QPNP_TM_REG_STATUS)) = some sn →
      normalized_stage chip.subtype chip.stage = some so →
      (so < sn → 1 ≤ sn ∧ sn ≤ 3) ∧ (sn < so → 1 ≤ sn + 1 ∧ sn + 1 ≤ 3) ∧
      ∃ c1,
        qpnp_tm_update_temp_no_adc chip hw =
          some (0, c1,
            logged hw [bus_event.reg_read (bus_addr chip.base QPNP_TM_REG_STATUS)]) ∧
        (sn = so → c1.temp = chip.temp) ∧
        (sn ≠ so → 88000 ≤ c1.temp ∧ c1.temp ≤ 162000 ∧ c1.temp ≠ 2000 ∧
          c1.temp ≠ -2000)) ∧
    (∀ hw : Platform,
      0 ≤ hw.read_ret (bus_addr chip.base QPNP_TM_REG_SHUTDOWN_CTRL1) →
      0 ≤ hw.read_ret (bus_addr chip.base QPNP_TM_REG_STATUS) →
      reg_byte chip.base hw QPNP_TM_REG_SHUTDOWN_CTRL1 &&& SHUTDOWN_CTRL1_THRESHOLD_MASK ≤ 3 ∧
      ∃ stage ret c1 hw1,
        normalized_stage chip.subtype
          (status_field chip.subtype (reg_byte chip.base hw QPNP_TM_REG_STATUS))
            = some stage ∧
        (stage ≠ 0 → 1 ≤ stage ∧ stage ≤ 3) ∧
        qpnp_tm_init chip hw = some (ret, c1, hw1) ∧
        (stage = 0 → c1.temp = 37000) ∧
        (stage ≠ 0 → 90000 ≤ c1.temp ∧ c1.temp ≤ 160000)) := by
  constructor
  · intro hw sn so hread hnew hold
    have hso : so ≤ 3 := normalized_stage_le _ _ _ hold hstage
    have hsn : sn ≤ 3 := by
      apply normalized_stage_le _ _ _ hnew
      intro hs
      rw [hs]
      have := status_field_gen1 (reg_byte chip.base hw QPNP_TM_REG_STATUS)
      omega
    refine ⟨fun h => by omega, fun h => by omega, ?_⟩
    rcases Nat.lt_trichotomy sn so with hlt | heq | hgt
    · obtain ⟨row, t, -, -, hdec, hlo, hhi⟩ :=
        decode_temp_entry chip tm hmap htab hth (sn + 1) (by omega) (by omega)
      have hwr : wrap_long (t - TEMP_STAGE_HYSTERESIS) = t - 2000 := by
        unfold TEMP_STAGE_HYSTERESIS
        apply wrap_long_id <;> omega
      refine ⟨{ chip with
          temp := t - 2000,
          stage := status_field chip.subtype (reg_byte chip.base hw QPNP_TM_REG_STATUS) },
        ?_, fun h => by omega, fun _ => ?_⟩
      · rw [update_ok chip hw hread sn so hnew hold, if_neg (by omega), if_pos hlt, hdec]
        simp [hwr]
      · dsimp only
        omega
    · refine ⟨{ chip with
          stage := status_field chip.subtype (reg_byte chip.base hw QPNP_TM_REG_STATUS) },
        ?_, fun _ => rfl, fun h => absurd heq h⟩
      rw [update_ok chip hw hread sn so hnew hold, if_neg (by omega), if_neg (by omega)]
      simp
    · obtain ⟨row, t, -, -, hdec, hlo, hhi⟩ :=
        decode_temp_entry chip tm hmap htab hth sn (by omega) hsn
      have hwr : wrap_long (t + TEMP_STAGE_HYSTERESIS) = t + 2000 := by
        unfold TEMP_STAGE_HYSTERESIS
        apply wrap_long_id <;> omega
      refine ⟨{ chip with
          temp := t + 2000,
          stage := status_field chip.subtype (reg_byte chip.base hw QPNP_TM_REG_STATUS) },
        ?_, fun h => by omega, fun _ => ?_⟩
      · rw [update_ok chip hw hread sn so hnew hold, if_pos hgt, hdec]
        simp [hwr]
      · dsimp only
        omega
  · intro hw h1 h2
    have hth2 : reg_byte chip.base hw QPNP_TM_REG_SHUTDOWN_CTRL1 &&&
        SHUTDOWN_CTRL1_THRESHOLD_MASK ≤ 3 := by
      rw [and3]
      omega
    refine ⟨hth2, ?_⟩
    have htab3 : chip.temp_map = none ∨ chip.temp_map = some temp_map_gen1 ∨
        chip.temp_map = some temp_map_gen2_v1 := by
      rcases htab with h | h
      · exact Or.inr (Or.inl (by rw [hmap, h]))
      · exact Or.inr (Or.inr (by rw [hmap, h]))
    obtain ⟨stage, t, ret, hw1, hn, ht, hi⟩ := init_after_reads chip hw htab3 h1 h2
    have hs3 : stage ≤ 3 := by
      apply normalized_stage_le _ _ _ hn
      intro hs
      rw [hs]
      have := status_field_gen1 (reg_byte chip.base hw QPNP_TM_REG_STATUS)
      omega
    refine ⟨stage, ret, _, hw1, hn, fun h0 => by omega, hi, ?_, ?_⟩
    · intro h0
      simp only [h0, ne_eq, not_true_eq_false, if_false, Option.some.injEq] at ht
      dsimp only
      rw [← ht]
      rfl
    · intro h0
      simp only [ne_eq, h0, not_false_eq_true, if_true] at ht
      obtain ⟨row, t1, -, -, hd, hlo, hhi⟩ := decode_temp_entry
        { chip with
          thresh := reg_byte chip.base hw QPNP_TM_REG_SHUTDOWN_CTRL1 &&&
            SHUTDOWN_CTRL1_THRESHOLD_MASK,
          temp := DEFAULT_TEMP,
          stage := status_field chip.subtype (reg_byte chip.base hw QPNP_TM_REG_STATUS) }
        tm hmap htab hth2 stage (by omega) hs3
      rw [hd] at ht
      have e : t1 = t := Option.some.inj ht
      dsimp only
      omega

/-- Witness of C19: the GEN1 chip at threshold set 1 and stage 2, a rise to stage 3, and an
init that reads stage 1 with the hardware threshold set 3. -/
theorem lookup_failure_unreachable_witness :
    ((2 < 3 → 1 ≤ 3 ∧ 3 ≤ 3) ∧ (3 < 2 → 1 ≤ 3 + 1 ∧ 3 + 1 ≤ 3) ∧
      ∃ c1,
        qpnp_tm_update_temp_no_adc (chip_gen1 1 2 132000) (hw_regs 3 0xC3) =
          some (0, c1,
            logged (hw_regs 3 0xC3)
              [bus_event.reg_read
                (bus_addr (chip_gen1 1 2 132000).base QPNP_TM_REG_STATUS)]) ∧
        (3 = 2 → c1.temp = (chip_gen1 1 2 132000).temp) ∧
        (3 ≠ 2 → 88000 ≤ c1.temp ∧ c1.temp ≤ 162000 ∧ c1.temp ≠ 2000 ∧
          c1.temp ≠ -2000)) ∧
    (qpnp_tm_update_temp_no_adc (chip_gen1 1 2 132000) (hw_regs 3 0xC3)).map
      (fun r => (r.1, r.2.1.temp)) = some (0, 152000) ∧
    (qpnp_tm_init (chip_gen1 1 2 132000) (hw_regs 1 0xC3)).map
      (fun r => (r.1, r.2.1.temp)) = some (0, 120000) :=
  ⟨(lookup_failure_unreachable (chip_gen1 1 2 132000) temp_map_gen1 rfl (Or.inl rfl)
      (by decide) (by decide)).1 (hw_regs 3 0xC3) 3 2 (by decide) (by decide) (by decide),
   by decide, by decide⟩

/-- The bounds the driver keeps: the stored stage is at most 3 for GEN1 and at most 7
otherwise, both threshold sets are at most 3, and the table pointer is null or one of the
two calibration tables. -/
theorem run_call_bounds (chip : qpnp_tm_chip) (call : driver_call)
    (hst : chip.stage ≤ (if chip.subtype = QPNP_TM_SUBTYPE_GEN1 then 3 else 7))
    (hth : chip.thresh ≤ 3) (hinit : chip.init_thresh ≤ 3)
    (htab : chip.temp_map = none ∨ chip.temp_map = some temp_map_gen1 ∨
      chip.temp_map = some temp_map_gen2_v1) :
    ∃ c1, run_call chip call = some c1 ∧
      c1.stage ≤ (if c1.subtype = QPNP_TM_SUBTYPE_GEN1 then 3 else 7) ∧
      c1.thresh ≤ 3 ∧ c1.init_thresh ≤ 3 ∧
      (c1.temp_map = none ∨ c1.temp_map = some temp_map_gen1 ∨
        c1.temp_map = some temp_map_gen2_v1) := by
  have hraw : ∀ b, status_field chip.subtype b ≤
      (if chip.subtype = QPNP_TM_SUBTYPE_GEN1 then 3 else 7) := by
    intro b
    split
    · rename_i hs
      rw [hs]
      have := status_field_gen1 b
      omega
    · have := status_field_le chip.subtype b
      omega
  have hst8 : chip.subtype = QPNP_TM_SUBTYPE_GEN1 ∨ chip.stage < 8 := by
    by_cases hs : chip.subtype = QPNP_TM_SUBTYPE_GEN1
    · exact Or.inl hs
    · rw [if_neg hs] at hst
      exact Or.inr (by omega)
  have hupd : ∀ hw : Platform, ∃ ret c1 hw1,
      qpnp_tm_update_temp_no_adc chip hw = some (ret, c1, hw1) ∧
      c1.stage ≤ (if c1.subtype = QPNP_TM_SUBTYPE_GEN1 then 3 else 7) ∧
      c1.thresh ≤ 3 ∧ c1.init_thresh ≤ 3 ∧
      (c1.temp_map = none ∨ c1.temp_map = some temp_map_gen1 ∨
        c1.temp_map = some temp_map_gen2_v1) := by
    intro hw
    by_cases hr : 0 ≤ hw.read_ret (bus_addr chip.base QPNP_TM_REG_STATUS)
    · obtain ⟨t, ht⟩ := update_returns chip hw htab hst8 hr
      exact ⟨0, { chip with
          temp := t,
          stage := status_field chip.subtype (reg_byte chip.base hw QPNP_TM_REG_STATUS) },
        _, ht, hraw _, hth, hinit, htab⟩
    · exact ⟨_, chip, _, update_fail chip hw (not_le.mp hr), hst, hth, hinit, htab⟩
  cases call with
  | init hw =>
    by_cases h1 : 0 ≤ hw.read_ret (bus_addr chip.base QPNP_TM_REG_SHUTDOWN_CTRL1)
    swap
    · refine ⟨chip, ?_, hst, hth, hinit, htab⟩
      simp only [run_call, init_fail_first chip hw (not_le.mp h1), Option.map_some']
    by_cases h2 : 0 ≤ hw.read_ret (bus_addr chip.base QPNP_TM_REG_STATUS)
    swap
    · refine ⟨{ chip with
          thresh := reg_byte chip.base hw QPNP_TM_REG_SHUTDOWN_CTRL1 &&&
            SHUTDOWN_CTRL1_THRESHOLD_MASK,
          temp := DEFAULT_TEMP }, ?_, hst, ?_, hinit, htab⟩
      · simp only [run_call, init_fail_second chip hw h1 (not_le.mp h2), Option.map_some']
      · dsimp only
        rw [and3]
        omega
    obtain ⟨stage, t, ret, hw1, -, -, hi⟩ := init_after_reads chip hw htab h1 h2
    refine ⟨{ chip with
        thresh := chip.init_thresh,
        temp := t,
        stage := status_field chip.subtype (reg_byte chip.base hw QPNP_TM_REG_STATUS) },
      ?_, hraw _, hinit, hinit, htab⟩
    simp only [run_call, hi, Option.map_some']
  | update hw =>
    obtain ⟨ret, c1, hw1, hu, hb⟩ := hupd hw
    refine ⟨c1, ?_, hb⟩
    simp only [run_call, hu, Option.map_some']
  | get_temp temp hw =>
    cases temp with
    | none =>
      refine ⟨chip, ?_, hst, hth, hinit, htab⟩
      simp only [run_call, qpnp_tm_get_temp, Option.map_some']
    | some out =>
      by_cases hadc : IS_ERR chip.adc = true
      · obtain ⟨ret, c1, hw1, hu, hb⟩ := hupd hw
        refine ⟨c1, ?_, hb⟩
        simp only [run_call, qpnp_tm_get_temp, hadc, if_true, hu, Option.some_bind]
        split <;> rfl
      · by_cases hr : hw.iio_ret < 0
        · refine ⟨chip, ?_, hst, hth, hinit, htab⟩
          simp [run_call, qpnp_tm_get_temp, hadc, iio_read_channel_processed, hr]
        · refine ⟨{ chip with temp := wrap_int hw.iio_val }, ?_, hst, hth, hinit, htab⟩
          simp [run_call, qpnp_tm_get_temp, hadc, iio_read_channel_processed, hr]

theorem run_calls_bounds (calls : List driver_call) :
    ∀ chip : qpnp_tm_chip,
      chip.stage ≤ (if chip.subtype = QPNP_TM_SUBTYPE_GEN1 then 3 else 7) →
      chip.thresh ≤ 3 → chip.init_thresh ≤ 3 →
      (chip.temp_map = none ∨ chip.temp_map = some temp_map_gen1 ∨
        chip.temp_map = some temp_map_gen2_v1) →
      ∃ c1, run_calls chip calls = some c1 ∧
        c1.stage ≤ (if c1.subtype = QPNP_TM_SUBTYPE_GEN1 then 3 else 7) ∧
        c1.thresh ≤ 3 := by
  induction calls with
  | nil =>
    intro chip hst hth _ _
    exact ⟨chip, rfl, hst, hth⟩
  | cons call rest ih =>
    intro chip hst hth hinit htab
    obtain ⟨c1, hc, h1, h2, h3, h4⟩ := run_call_bounds chip call hst hth hinit htab
    obtain ⟨c2, hc2, hb⟩ := ih c1 h1 h2 h3 h4
    refine ⟨c2, ?_, hb⟩
    simp only [run_calls, hc, Option.some_bind, hc2]

/-- C20: the index bounds.  Start from a chip as the probe hands it to the first
`qpnp_tm_init`: zero stage and threshold set, a validated `init_thresh` in 0..3, a null
table pointer or one of the two tables, every other field arbitrary.  After any sequence of
`qpnp_tm_init`, `qpnp_tm_update_temp_no_adc` and `qpnp_tm_get_temp` calls, each on an
arbitrary platform and whatever each returns, no call has read `alarm_state_map` or the
table outside its bounds (the run is defined), the stored stage is at most 3 for GEN1 and
at most 7 otherwise, and the threshold set is at most 3. -/
theorem index_bounds (chip : qpnp_tm_chip) (calls : List driver_call)
    (hstage : chip.stage = 0) (hthresh : chip.thresh = 0) (hinit : chip.init_thresh ≤ 3)
    (htab : chip.temp_map = none ∨ chip.temp_map = some temp_map_gen1 ∨
      chip.temp_map = some temp_map_gen2_v1) :
    ∃ c1, run_calls chip calls = some c1 ∧
      (c1.subtype = QPNP_TM_SUBTYPE_GEN1 → c1.stage ≤ 3) ∧ c1.stage ≤ 7 ∧ c1.thresh ≤ 3 ∧
      c1.stage < alarm_state_map.length ∧ c1.thresh < THRESH_COUNT := by
  obtain ⟨c1, hc, hs, ht⟩ := run_calls_bounds calls chip
    (by rw [hstage]; split <;> omega) (by omega) hinit htab
  refine ⟨c1, hc, fun h => ?_, ?_, ht, ?_, ?_⟩
  · rw [if_pos h] at hs
    exact hs
  · split at hs <;> omega
  · have : alarm_state_map.length = 8 := rfl
    split at hs <;> omega
  · simp only [THRESH_COUNT]
    omega

/-- Witness of C20: a GEN2 chip configured for threshold set 3, on a platform whose
registers all read 0xFF: after init, two updates and a get_temp the stage is 7 and the
threshold set 3. -/
theorem index_bounds_witness :
    (∃ c1, run_calls { (chip_gen2 0 0 0) with init_thresh := 3 }
        [driver_call.init hw_all_ones, driver_call.update hw_all_ones,
         driver_call.update (hw_read_fails 0 0),
         driver_call.get_temp (some 0) hw_all_ones] = some c1 ∧
      (c1.subtype = QPNP_TM_SUBTYPE_GEN1 → c1.stage ≤ 3) ∧ c1.stage ≤ 7 ∧ c1.thresh ≤ 3 ∧
      c1.stage < alarm_state_map.length ∧ c1.thresh < THRESH_COUNT) ∧
    (run_calls { (chip_gen2 0 0 0) with init_thresh := 3 }
        [driver_call.init hw_all_ones, driver_call.update hw_all_ones,
         driver_call.update (hw_read_fails 0 0),
         driver_call.get_temp (some 0) hw_all_ones]).map
      (fun c => (c.stage, c.thresh)) = some (7, 3) :=
  ⟨index_bounds { (chip_gen2 0 0 0) with init_thresh := 3 }
      [driver_call.init hw_all_ones, driver_call.update hw_all_ones,
       driver_call.update (hw_read_fails 0 0),
       driver_call.get_temp (some 0) hw_all_ones]
      (by decide) (by decide) (by decide) (Or.inr (Or.inr rfl)),
   by decide⟩

end QpnpTm
